import Mathlib

/-!
# Compose stack creation (api/http/handler/stacks/create_compose_stack.go)

A shallow embedding of the three create flows and of `deployComposeStack`.

* The handler's collaborators (data store, file service, stack managers, git clone, request
  decoding) live outside the embedded file.  They are fields of `Handler`, each an arbitrary
  function of an abstract world `σ`, so every theorem quantifies over every behaviour of them.
* Every collaborator call is appended to a trace with its arguments and its result, together
  with the state of `stackCreationMutex` at the moment of the call.  The handler methods of the
  embedded file are recorded too, when they return.
* A computation is a function `State σ → Option (α × State σ)`; `none` means the computation does
  not return (it blocks on the mutex, or unlocks a mutex that is not locked).

The version service (api/bolt/version/version.go) is embedded after the flows: the bolt bucket is
a list of keys with their values, and `strconv.Atoi` works on the bytes of its argument.
-/

set_option linter.unusedTactic false
set_option linter.unusedVariables false
set_option linter.unnecessarySeqFocus false

namespace Portainer

/-! ## Data model -/

deriving instance DecidableEq for Except

/-- Go byte slices. -/
abbrev Bytes := List UInt8

/-- Go error values, identified by their message (what `err.Error()` returns). -/
abbrev Error := String

/-- The conversion `[]byte(s)`: the UTF-8 encoding of the string. -/
def bytesOfString (s : String) : Bytes := s.data.flatMap String.utf8EncodeChar

/-- The function `strconv.Itoa`, the decimal representation of an int. -/
def Itoa (v : Int) : String := toString v

/-- The constant `http.StatusBadRequest`. -/
def StatusBadRequest : Nat := 400

/-- The constant `http.StatusConflict`. -/
def StatusConflict : Nat := 409

/-- The constant `http.StatusInternalServerError`. -/
def StatusInternalServerError : Nat := 500

/-- The type `portainer.Pair`. -/
structure Pair where
  Name : String
  Value : String
deriving DecidableEq, Repr

/-- Modelled from the spec: the stack type, a tag distinguishing orchestration flavors
(`portainer.StackType` is declared outside the embedded files). -/
inductive StackType where
  | DockerSwarmStack
  | DockerComposeStack
  | KubernetesStack
deriving DecidableEq, Repr

/-- Modelled from the spec: the stack status, active or inactive
(`portainer.StackStatus` is declared outside the embedded files). -/
inductive StackStatus where
  | StackStatusActive
  | StackStatusInactive
deriving DecidableEq, Repr

/-- The fields of `portainer.Stack` that the create flows read or write.  `ProjectPath` and
`CreatedBy` start as the empty string, the zero value of the composite literal. -/
structure Stack where
  ID : Int
  Name : String
  Type_ : StackType
  EndpointID : Int
  EntryPoint : String
  Env : List Pair
  Status : StackStatus
  CreationDate : Int
  ProjectPath : String
  CreatedBy : String
deriving DecidableEq, Repr

/-- The five permissions of `portainer.EndpointSecuritySettings` read by `deployComposeStack`. -/
structure EndpointSecuritySettings where
  AllowBindMountsForRegularUsers : Bool
  AllowPrivilegedModeForRegularUsers : Bool
  AllowHostNamespaceForRegularUsers : Bool
  AllowDeviceMappingForRegularUsers : Bool
  AllowContainerCapabilitiesForRegularUsers : Bool
deriving DecidableEq, Repr

/-- The fields of `portainer.Endpoint` read by the create flows. -/
structure Endpoint where
  ID : Int
  SecuritySettings : EndpointSecuritySettings
deriving DecidableEq, Repr

/-- The fields of `portainer.User` read by the create flows. -/
structure User where
  ID : Int
  Username : String
deriving DecidableEq, Repr

/-- The default registry record `portainer.DockerHub`, carried through unchanged. -/
structure DockerHub where
  Authentication : Bool
  Username : String
deriving DecidableEq, Repr

/-- A registry record `portainer.Registry`, carried through unchanged. -/
structure Registry where
  ID : Int
  URL : String
deriving DecidableEq, Repr

/-- The fields of `security.RestrictedRequestContext` read by `createComposeDeployConfig`. -/
structure RestrictedRequestContext where
  IsAdmin : Bool
  UserID : Int
deriving DecidableEq, Repr

/-- The type `httperror.HandlerError`. -/
structure HandlerError where
  StatusCode : Nat
  Message : String
  Err : Error
deriving DecidableEq, Repr

/-- The payload of the inline-content flow. -/
structure composeStackFromFileContentPayload where
  Name : String
  StackFileContent : String
  Env : List Pair
deriving DecidableEq, Repr

/-- The payload of the git-repository flow. -/
structure composeStackFromGitRepositoryPayload where
  Name : String
  RepositoryURL : String
  RepositoryReferenceName : String
  RepositoryAuthentication : Bool
  RepositoryUsername : String
  RepositoryPassword : String
  ComposeFilePathInRepository : String
  Env : List Pair
deriving DecidableEq, Repr

/-- The payload of the file-upload flow. -/
structure composeStackFromFileUploadPayload where
  Name : String
  StackFileContent : Bytes
  Env : List Pair
deriving DecidableEq, Repr

/-- The parameters handed to `cloneGitRepository`, as built by the git flow. -/
structure cloneRepositoryParameters where
  url : String
  referenceName : String
  path : String
  authentication : Bool
  username : String
  password : String
deriving DecidableEq, Repr

/-- The type `composeStackDeploymentConfig`. -/
structure composeStackDeploymentConfig where
  stack : Stack
  endpoint : Endpoint
  dockerhub : DockerHub
  registries : List Registry
  isAdmin : Bool
  user : User
deriving DecidableEq, Repr

/-- What the request yields to the decoding helpers of `libhttp/request` and to
`security.RetrieveRestrictedRequestContext`; `none` stands for a helper returning an error that
the handler discards. -/
structure Request where
  /-- The body decoded by `json.Decode` into a `composeStackFromFileContentPayload`. -/
  jsonFileContent : Except Error composeStackFromFileContentPayload
  /-- The body decoded by `json.Decode` into a `composeStackFromGitRepositoryPayload`. -/
  jsonGitRepository : Except Error composeStackFromGitRepositoryPayload
  /-- The result of `RetrieveMultiPartFormValue(r, "Name", false)`. -/
  formName : Option String
  /-- The result of `RetrieveMultiPartFormFile(r, "file")`. -/
  formFile : Option Bytes
  /-- The result of `RetrieveMultiPartFormJSONValue(r, "Env", &env, true)`. -/
  formEnv : Option (List Pair)
  /-- The result of `security.RetrieveRestrictedRequestContext(r)`. -/
  securityContext : Except Error RestrictedRequestContext

/-! ## Collaborator calls and the trace -/

/-- A call made while a flow runs, with its arguments and what it returned.  The first group are
the collaborators; the last three are handler methods, recorded when they return. -/
inductive Call where
  | NormalizeStackName (name : String) (result : String)
  | checkUniqueName (endpoint : Endpoint) (name : String) (stackID : Int) (swarmMode : Bool)
      (result : Except Error Bool)
  | GetNextIdentifier (result : Int)
  | Now (result : Int)
  | StoreStackFileFromBytes (stackIdentifier fileName : String) (data : Bytes)
      (result : Except Error String)
  | GetStackProjectPath (stackIdentifier : String) (result : String)
  | cloneGitRepository (parameters : cloneRepositoryParameters) (result : Option Error)
  | DockerHub (result : Except Error DockerHub)
  | Registries (result : Except Error (List Registry))
  | User (ID : Int) (result : Except Error User)
  | userIsAdminOrEndpointAdmin (user : User) (endpointID : Int) (result : Except Error Bool)
  | GetFileContent (filePath : String) (result : Except Error Bytes)
  | isValidStackFile (stackFileContent : Bytes) (securitySettings : EndpointSecuritySettings)
      (result : Option Error)
  | Lock
  | Unlock
  | Login (dockerhub : DockerHub) (registries : List Registry) (endpoint : Endpoint)
  | Up (stack : Stack) (endpoint : Endpoint) (result : Option Error)
  | Logout (endpoint : Endpoint) (result : Option Error)
  | CreateStack (stack : Stack) (result : Option Error)
  | RemoveDirectory (directoryPath : String) (result : Option Error)
  | decorateStackResponse (stack : Stack) (userID : Int) (result : Option HandlerError)
  | createComposeDeployConfig (stack : Stack) (endpoint : Endpoint)
      (result : Except HandlerError composeStackDeploymentConfig)
  | deployComposeStack (config : composeStackDeploymentConfig) (result : Option Error)
  | cleanUp (stack : Stack) (doCleanUp : Bool)
deriving DecidableEq, Repr

/-- A trace entry: the call, and whether `stackCreationMutex` was held when it was made. -/
structure Event where
  call : Call
  locked : Bool
deriving DecidableEq, Repr

/-- The collaborators of the stacks handler.  Each is an arbitrary function of the world `σ`;
a collaborator receiving a `*portainer.Stack` is taken to read it only. -/
structure Handler (σ : Type) where
  /-- The constant `filesystem.ComposeFileDefaultName`. -/
  ComposeFileDefaultName : String
  /-- The function `path.Join` on two elements. -/
  pathJoin : String → String → String
  /-- The function `govalidator.IsURL`. -/
  IsURL : String → Bool
  /-- The function `security.FilterRegistries`. -/
  FilterRegistries : List Registry → RestrictedRequestContext → List Registry
  /-- The clock, `time.Now().Unix()`. -/
  Now : σ → Int × σ
  NormalizeStackName : String → σ → String × σ
  checkUniqueName : Endpoint → String → Int → Bool → σ → Except Error Bool × σ
  GetNextIdentifier : σ → Int × σ
  StoreStackFileFromBytes : String → String → Bytes → σ → Except Error String × σ
  GetStackProjectPath : String → σ → String × σ
  cloneGitRepository : cloneRepositoryParameters → σ → Option Error × σ
  Registries : σ → Except Error (List Registry) × σ
  userIsAdminOrEndpointAdmin : User → Int → σ → Except Error Bool × σ
  GetFileContent : String → σ → Except Error Bytes × σ
  isValidStackFile : Bytes → EndpointSecuritySettings → σ → Option Error × σ
  Login : DockerHub → List Registry → Endpoint → σ → Unit × σ
  Up : Stack → Endpoint → σ → Option Error × σ
  Logout : Endpoint → σ → Option Error × σ
  CreateStack : Stack → σ → Option Error × σ
  RemoveDirectory : String → σ → Option Error × σ
  decorateStackResponse : Stack → Int → σ → Option HandlerError × σ
  DockerHub : σ → Except Error Portainer.DockerHub × σ
  User : Int → σ → Except Error Portainer.User × σ

/-- The state threaded through a handler method: the world of the collaborators, the handler's
`stackCreationMutex` (true when held) and the trace of calls made so far, oldest first. -/
structure State (σ : Type) where
  world : σ
  stackCreationMutex : Bool
  trace : List Event

/-- A handler computation; `none` when it does not return. -/
def Exec (σ α : Type) : Type := State σ → Option (α × State σ)

/-- Return a value without touching the state. -/
def Exec.pure {σ α : Type} (a : α) : Exec σ α := fun s => some (a, s)

/-- Sequence two computations. -/
def Exec.bind {σ α β : Type} (m : Exec σ α) (f : α → Exec σ β) : Exec σ β := fun s =>
  match m s with
  | none => none
  | some (a, s1) => f a s1

instance {σ : Type} : Monad (Exec σ) where
  pure := Exec.pure
  bind := Exec.bind

/-- Append a call to the trace. -/
def record {σ : Type} (c : Call) : Exec σ Unit := fun s =>
  some ((),
    { world := s.world
      stackCreationMutex := s.stackCreationMutex
      trace := s.trace ++ [⟨c, s.stackCreationMutex⟩] })

/-- Call a collaborator: run it on the world and record the call with its result. -/
def call {σ α : Type} (c : α → Call) (f : σ → α × σ) : Exec σ α := fun s =>
  some ((f s.world).1,
    { world := (f s.world).2
      stackCreationMutex := s.stackCreationMutex
      trace := s.trace ++ [⟨c (f s.world).1, s.stackCreationMutex⟩] })

/-- The method `sync.Mutex.Lock` on `stackCreationMutex`: acquires the mutex when it is free, and
does not return while it is held. -/
def Lock {σ : Type} : Exec σ Unit := fun s =>
  if s.stackCreationMutex then none
  else some ((),
    { world := s.world
      stackCreationMutex := true
      trace := s.trace ++ [⟨Call.Lock, s.stackCreationMutex⟩] })

/-- The method `sync.Mutex.Unlock` on `stackCreationMutex`: releases a held mutex; unlocking a
mutex that is not locked is a fatal error. -/
def Unlock {σ : Type} : Exec σ Unit := fun s =>
  if s.stackCreationMutex then
    some ((),
      { world := s.world
        stackCreationMutex := false
        trace := s.trace ++ [⟨Call.Unlock, s.stackCreationMutex⟩] })
  else none

/-! ## deployComposeStack -/

/-- The guard of the policy check in `deployComposeStack`: some permission is disallowed and the
actor is not an administrator of the endpoint. -/
def policyCheckRequired (securitySettings : EndpointSecuritySettings)
    (isAdminOrEndpointAdmin : Bool) : Bool :=
  (!securitySettings.AllowBindMountsForRegularUsers ||
    !securitySettings.AllowPrivilegedModeForRegularUsers ||
    !securitySettings.AllowHostNamespaceForRegularUsers ||
    !securitySettings.AllowDeviceMappingForRegularUsers ||
    !securitySettings.AllowContainerCapabilitiesForRegularUsers) &&
    !isAdminOrEndpointAdmin

/-- The body of the policy branch of `deployComposeStack`: read the stack file back and validate
it; the result is the error the branch returns with, if any. -/
def policyCheck {σ : Type} (h : Handler σ) (config : composeStackDeploymentConfig) :
    Exec σ (Option Error) := do
  let securitySettings := config.endpoint.SecuritySettings
  let composeFilePath := h.pathJoin config.stack.ProjectPath config.stack.EntryPoint
  match ← call (Call.GetFileContent composeFilePath) (h.GetFileContent composeFilePath) with
  | Except.error err => pure (some err)
  | Except.ok stackContent =>
    call (Call.isValidStackFile stackContent securitySettings)
      (h.isValidStackFile stackContent securitySettings)

/-- The statements of `deployComposeStack` after `defer handler.stackCreationMutex.Unlock()`:
login, deploy, logout. -/
def credentialSection {σ : Type} (h : Handler σ) (config : composeStackDeploymentConfig) :
    Exec σ (Option Error) := do
  let _ ← call (fun _ => Call.Login config.dockerhub config.registries config.endpoint)
    (h.Login config.dockerhub config.registries config.endpoint)
  match ← call (Call.Up config.stack config.endpoint) (h.Up config.stack config.endpoint) with
  | some err => pure (some err)
  | none => call (Call.Logout config.endpoint) (h.Logout config.endpoint)

/-- The statements of `Handler.deployComposeStack`.  The deferred `Unlock` runs after the return
value of the credential section has been computed. -/
def deployComposeStackBody {σ : Type} (h : Handler σ) (config : composeStackDeploymentConfig) :
    Exec σ (Option Error) := do
  match ← call (Call.userIsAdminOrEndpointAdmin config.user config.endpoint.ID)
      (h.userIsAdminOrEndpointAdmin config.user config.endpoint.ID) with
  | Except.error err => pure (some err)
  | Except.ok isAdminOrEndpointAdmin =>
    let policyErr ←
      if policyCheckRequired config.endpoint.SecuritySettings isAdminOrEndpointAdmin then
        policyCheck h config
      else pure none
    match policyErr with
    | some err => pure (some err)
    | none =>
      Lock
      let err ← credentialSection h config
      Unlock
      pure err

/-- The method `Handler.deployComposeStack`: its statements, and the record of its return. -/
def deployComposeStack {σ : Type} (h : Handler σ) (config : composeStackDeploymentConfig) :
    Exec σ (Option Error) := do
  let err ← deployComposeStackBody h config
  record (Call.deployComposeStack config err)
  pure err

/-! ## deployComposeStack, one call at a time

The same method as a transition system, for concurrent executions: a goroutine executing
`deployComposeStack` is at one of the program points below, and a step makes the next call on the
shared state.  The collaborator calls are atomic; `Lock` is enabled only while the mutex is free. -/

/-- The program points of `deployComposeStack`. -/
inductive PC where
  /-- About to call `userIsAdminOrEndpointAdmin`. -/
  | atAdminCheck
  /-- In the policy branch, about to call `GetFileContent`. -/
  | atReadFile
  /-- In the policy branch, about to call `isValidStackFile` on the content read. -/
  | atValidate (stackContent : Bytes)
  /-- About to call `stackCreationMutex.Lock()`. -/
  | atLock
  /-- Holding the mutex, about to call `Login`. -/
  | atLogin
  /-- Holding the mutex, about to call `Up`. -/
  | atUp
  /-- Holding the mutex, about to call `Logout`. -/
  | atLogout
  /-- Holding the mutex with the return value computed, about to run the deferred `Unlock`. -/
  | atUnlock (err : Option Error)
  /-- Returned. -/
  | returned (err : Option Error)
deriving DecidableEq, Repr

/-- The goroutine is between `stackCreationMutex.Lock()` and the matching `Unlock()`. -/
def PC.inCriticalSection : PC → Bool
  | PC.atLogin => true
  | PC.atUp => true
  | PC.atLogout => true
  | PC.atUnlock _ => true
  | _ => false

/-- What one step does to the critical section and to the mutex. -/
def StepEffect (pc : PC) (m : Bool) (pc1 : PC) (m1 : Bool) : Prop :=
  (pc.inCriticalSection = false ∧ pc1.inCriticalSection = false ∧ m1 = m) ∨
  (pc.inCriticalSection = false ∧ pc1.inCriticalSection = true ∧ m = false ∧ m1 = true) ∨
  (pc.inCriticalSection = true ∧ pc1.inCriticalSection = true ∧ m1 = m) ∨
  (pc.inCriticalSection = true ∧ pc1.inCriticalSection = false ∧ m = true ∧ m1 = false)

/-- One step of `deployComposeStack` from a program point; `none` when the goroutine cannot move:
it is blocked in `Lock`, or it has returned. -/
def stepDeploy {σ : Type} (h : Handler σ) (config : composeStackDeploymentConfig) :
    PC → Exec σ PC
  | PC.atAdminCheck => do
    match ← call (Call.userIsAdminOrEndpointAdmin config.user config.endpoint.ID)
        (h.userIsAdminOrEndpointAdmin config.user config.endpoint.ID) with
    | Except.error err =>
      record (Call.deployComposeStack config (some err))
      pure (PC.returned (some err))
    | Except.ok isAdminOrEndpointAdmin =>
      if policyCheckRequired config.endpoint.SecuritySettings isAdminOrEndpointAdmin then
        pure PC.atReadFile
      else pure PC.atLock
  | PC.atReadFile => do
    let composeFilePath := h.pathJoin config.stack.ProjectPath config.stack.EntryPoint
    match ← call (Call.GetFileContent composeFilePath) (h.GetFileContent composeFilePath) with
    | Except.error err =>
      record (Call.deployComposeStack config (some err))
      pure (PC.returned (some err))
    | Except.ok stackContent => pure (PC.atValidate stackContent)
  | PC.atValidate stackContent => do
    match ← call (Call.isValidStackFile stackContent config.endpoint.SecuritySettings)
        (h.isValidStackFile stackContent config.endpoint.SecuritySettings) with
    | some err =>
      record (Call.deployComposeStack config (some err))
      pure (PC.returned (some err))
    | none => pure PC.atLock
  | PC.atLock => do
    Lock
    pure PC.atLogin
  | PC.atLogin => do
    let _ ← call (fun _ => Call.Login config.dockerhub config.registries config.endpoint)
      (h.Login config.dockerhub config.registries config.endpoint)
    pure PC.atUp
  | PC.atUp => do
    match ← call (Call.Up config.stack config.endpoint) (h.Up config.stack config.endpoint) with
    | some err => pure (PC.atUnlock (some err))
    | none => pure PC.atLogout
  | PC.atLogout => do
    let err ← call (Call.Logout config.endpoint) (h.Logout config.endpoint)
    pure (PC.atUnlock err)
  | PC.atUnlock err => do
    Unlock
    record (Call.deployComposeStack config err)
    pure (PC.returned err)
  | PC.returned _ => fun _ => none

/-- Run one goroutine alone from a program point until it returns, for at most `fuel` steps. -/
def runDeploy {σ : Type} (h : Handler σ) (config : composeStackDeploymentConfig) :
    Nat → PC → Exec σ (Option Error)
  | _, PC.returned err => pure err
  | 0, _ => fun _ => none
  | fuel + 1, pc => do
    let next ← stepDeploy h config pc
    runDeploy h config fuel next

/-- Concurrent executions of `deployComposeStack` on one handler: the state they share, and the
program point of every goroutine. -/
structure System (σ : Type) where
  shared : State σ
  pcs : Nat → PC

/-- Every goroutine is about to start, the mutex is free, nothing has been called. -/
def System.initial {σ : Type} (w : σ) : System σ :=
  { shared := ⟨w, false, []⟩, pcs := fun _ => PC.atAdminCheck }

/-- Goroutine `i`, deploying `configs i`, makes its next step; nothing changes when it cannot
move. -/
def System.step {σ : Type} (h : Handler σ) (configs : Nat → composeStackDeploymentConfig)
    (sys : System σ) (i : Nat) : System σ :=
  match stepDeploy h (configs i) (sys.pcs i) sys.shared with
  | none => sys
  | some (pc, s1) => { shared := s1, pcs := Function.update sys.pcs i pc }

/-- The system after the goroutines have been scheduled in the order `schedule`. -/
def System.run {σ : Type} (h : Handler σ) (configs : Nat → composeStackDeploymentConfig)
    (schedule : List Nat) (sys : System σ) : System σ :=
  schedule.foldl (System.step h configs) sys

/-- The mutex is held exactly when some goroutine is in the critical section, and no two
goroutines are. -/
def System.Exclusive {σ : Type} (sys : System σ) : Prop :=
  (sys.shared.stackCreationMutex = false → ∀ i, (sys.pcs i).inCriticalSection = false) ∧
  (∀ i j, (sys.pcs i).inCriticalSection = true → (sys.pcs j).inCriticalSection = true → i = j)

/-! ## Payload validation and decoding -/

/-- The function `govalidator.IsNull`: the string has length zero. -/
def IsNull (str : String) : Bool := str.length == 0

/-- The method `composeStackFromFileContentPayload.Validate`. -/
def composeStackFromFileContentPayload.Validate (payload : composeStackFromFileContentPayload) :
    Option Error :=
  if IsNull payload.Name then some "Invalid stack name"
  else if IsNull payload.StackFileContent then some "Invalid stack file content"
  else none

/-- The method `composeStackFromGitRepositoryPayload.Validate`; `IsURL` is `govalidator.IsURL`. -/
def composeStackFromGitRepositoryPayload.Validate (IsURL : String → Bool)
    (payload : composeStackFromGitRepositoryPayload) : Option Error :=
  if IsNull payload.Name then some "Invalid stack name"
  else if IsNull payload.RepositoryURL || !IsURL payload.RepositoryURL then
    some "Invalid repository URL. Must correspond to a valid URL format"
  else if payload.RepositoryAuthentication &&
      (IsNull payload.RepositoryUsername || IsNull payload.RepositoryPassword) then
    some ("Invalid repository credentials. " ++
      "Username and password must be specified when authentication is enabled")
  else none

/-- The function `request.DecodeAndValidateJSONPayload`: decode the body, then validate the
decoded payload. -/
def DecodeAndValidateJSONPayload {P : Type} (decoded : Except Error P)
    (validate : P → Option Error) : Except Error P :=
  match decoded with
  | Except.error err => Except.error err
  | Except.ok payload =>
    match validate payload with
    | some err => Except.error err
    | none => Except.ok payload

/-- The function `decodeRequestForm`. -/
def decodeRequestForm (r : Request) : Except Error composeStackFromFileUploadPayload :=
  match r.formName with
  | none => Except.error "Invalid stack name"
  | some name =>
    match r.formFile with
    | none =>
      Except.error "Invalid Compose file. Ensure that the Compose file is uploaded correctly"
    | some composeFileContent =>
      match r.formEnv with
      | none => Except.error "Invalid Env parameter"
      | some env => Except.ok { Name := name, StackFileContent := composeFileContent, Env := env }

/-! ## The create flows -/

/-- The statements of `Handler.createComposeDeployConfig`. -/
def createComposeDeployConfigBody {σ : Type} (h : Handler σ) (r : Request) (stack : Stack)
    (endpoint : Endpoint) : Exec σ (Except HandlerError composeStackDeploymentConfig) := do
  match r.securityContext with
  | Except.error err =>
    pure (Except.error
      ⟨StatusInternalServerError, "Unable to retrieve info from request context", err⟩)
  | Except.ok securityContext =>
    match ← call Call.DockerHub h.DockerHub with
    | Except.error err =>
      pure (Except.error
        ⟨StatusInternalServerError, "Unable to retrieve DockerHub details from the database", err⟩)
    | Except.ok dockerhub =>
      match ← call Call.Registries h.Registries with
      | Except.error err =>
        pure (Except.error
          ⟨StatusInternalServerError, "Unable to retrieve registries from the database", err⟩)
      | Except.ok registries =>
        let filteredRegistries := h.FilterRegistries registries securityContext
        match ← call (Call.User securityContext.UserID) (h.User securityContext.UserID) with
        | Except.error err =>
          pure (Except.error
            ⟨StatusInternalServerError, "Unable to load user information from the database", err⟩)
        | Except.ok user =>
          pure (Except.ok
            { stack := stack
              endpoint := endpoint
              dockerhub := dockerhub
              registries := filteredRegistries
              isAdmin := securityContext.IsAdmin
              user := user })

/-- The method `Handler.createComposeDeployConfig`: its statements, and the record of its
return. -/
def createComposeDeployConfig {σ : Type} (h : Handler σ) (r : Request) (stack : Stack)
    (endpoint : Endpoint) : Exec σ (Except HandlerError composeStackDeploymentConfig) := do
  let result ← createComposeDeployConfigBody h r stack endpoint
  record (Call.createComposeDeployConfig stack endpoint result)
  pure result

/-- Modelled from the spec: the method `Handler.cleanUp`, which is not in the embedded file.  It
is the compensating action run unless the operation fully succeeded: with `doCleanUp` false it
does nothing, otherwise it deletes the on-disk project directory of the stack, and a deletion
failure does not change the result of the flow. -/
def cleanUp {σ : Type} (h : Handler σ) (stack : Stack) (doCleanUp : Bool) : Exec σ Unit := do
  if !doCleanUp then pure ()
  else
    let _ ← call (Call.RemoveDirectory stack.ProjectPath) (h.RemoveDirectory stack.ProjectPath)
    pure ()
  record (Call.cleanUp stack doCleanUp)

/-- The statements shared, word for word, by the three create flows after
`defer handler.cleanUp(stack, &doCleanUp)`, from `createComposeDeployConfig` to the return.  The
result carries the stack and the value of `doCleanUp` as the deferred call will see them. -/
def deployAndPersist {σ : Type} (h : Handler σ) (r : Request) (stack : Stack)
    (endpoint : Endpoint) (userID : Int) : Exec σ (Option HandlerError × Stack × Bool) := do
  match ← createComposeDeployConfig h r stack endpoint with
  | Except.error configErr => pure (some configErr, stack, true)
  | Except.ok config =>
    match ← deployComposeStack h config with
    | some err => pure (some ⟨StatusInternalServerError, err, err⟩, stack, true)
    | none =>
      let stack := { stack with CreatedBy := config.user.Username }
      match ← call (Call.CreateStack stack) (h.CreateStack stack) with
      | some err =>
        pure (some ⟨StatusInternalServerError,
          "Unable to persist the stack inside the database", err⟩, stack, true)
      | none =>
        let response ← call (Call.decorateStackResponse stack userID)
          (h.decorateStackResponse stack userID)
        pure (response, stack, false)

/-- The method `Handler.createComposeStackFromFileContent`. -/
def createComposeStackFromFileContent {σ : Type} (h : Handler σ) (r : Request)
    (endpoint : Endpoint) (userID : Int) : Exec σ (Option HandlerError) := do
  match DecodeAndValidateJSONPayload r.jsonFileContent
      composeStackFromFileContentPayload.Validate with
  | Except.error err => pure (some ⟨StatusBadRequest, "Invalid request payload", err⟩)
  | Except.ok payload =>
    let name ← call (Call.NormalizeStackName payload.Name) (h.NormalizeStackName payload.Name)
    let payload := { payload with Name := name }
    match ← call (Call.checkUniqueName endpoint payload.Name 0 false)
        (h.checkUniqueName endpoint payload.Name 0 false) with
    | Except.error err =>
      pure (some ⟨StatusInternalServerError, "Unable to check for name collision", err⟩)
    | Except.ok isUnique =>
      if !isUnique then
        let errorMessage :=
          "A stack with the name \x27" ++ payload.Name ++ "\x27 is already running"
        pure (some ⟨StatusConflict, errorMessage, errorMessage⟩)
      else
        let stackID ← call Call.GetNextIdentifier h.GetNextIdentifier
        let now ← call Call.Now h.Now
        let stack : Stack :=
          { ID := stackID
            Name := payload.Name
            Type_ := StackType.DockerComposeStack
            EndpointID := endpoint.ID
            EntryPoint := h.ComposeFileDefaultName
            Env := payload.Env
            Status := StackStatus.StackStatusActive
            CreationDate := now
            ProjectPath := ""
            CreatedBy := "" }
        let stackFolder := Itoa stack.ID
        match ← call
            (Call.StoreStackFileFromBytes stackFolder stack.EntryPoint
              (bytesOfString payload.StackFileContent))
            (h.StoreStackFileFromBytes stackFolder stack.EntryPoint
              (bytesOfString payload.StackFileContent)) with
        | Except.error err =>
          pure (some ⟨StatusInternalServerError, "Unable to persist Compose file on disk", err⟩)
        | Except.ok projectPath =>
          let stack := { stack with ProjectPath := projectPath }
          let (result, stack, doCleanUp) ← deployAndPersist h r stack endpoint userID
          cleanUp h stack doCleanUp
          pure result

/-- The statement of `createComposeStackFromGitRepository`
`if payload.ComposeFilePathInRepository == "" { payload.ComposeFilePathInRepository =
filesystem.ComposeFileDefaultName }`, as a function of the payload. -/
def defaultComposeFilePath (ComposeFileDefaultName : String)
    (payload : composeStackFromGitRepositoryPayload) : composeStackFromGitRepositoryPayload :=
  if payload.ComposeFilePathInRepository = "" then
    { payload with ComposeFilePathInRepository := ComposeFileDefaultName }
  else payload

/-- The method `Handler.createComposeStackFromGitRepository`. -/
def createComposeStackFromGitRepository {σ : Type} (h : Handler σ) (r : Request)
    (endpoint : Endpoint) (userID : Int) : Exec σ (Option HandlerError) := do
  match DecodeAndValidateJSONPayload r.jsonGitRepository
      (composeStackFromGitRepositoryPayload.Validate h.IsURL) with
  | Except.error err => pure (some ⟨StatusBadRequest, "Invalid request payload", err⟩)
  | Except.ok payload =>
    let name ← call (Call.NormalizeStackName payload.Name) (h.NormalizeStackName payload.Name)
    let payload := { payload with Name := name }
    let payload := defaultComposeFilePath h.ComposeFileDefaultName payload
    match ← call (Call.checkUniqueName endpoint payload.Name 0 false)
        (h.checkUniqueName endpoint payload.Name 0 false) with
    | Except.error err =>
      pure (some ⟨StatusInternalServerError, "Unable to check for name collision", err⟩)
    | Except.ok isUnique =>
      if !isUnique then
        let errorMessage := "A stack with the name \x27" ++ payload.Name ++ "\x27 already exists"
        pure (some ⟨StatusConflict, errorMessage, errorMessage⟩)
      else
        let stackID ← call Call.GetNextIdentifier h.GetNextIdentifier
        let now ← call Call.Now h.Now
        let stack : Stack :=
          { ID := stackID
            Name := payload.Name
            Type_ := StackType.DockerComposeStack
            EndpointID := endpoint.ID
            EntryPoint := payload.ComposeFilePathInRepository
            Env := payload.Env
            Status := StackStatus.StackStatusActive
            CreationDate := now
            ProjectPath := ""
            CreatedBy := "" }
        let projectPath ← call (Call.GetStackProjectPath (Itoa stack.ID))
          (h.GetStackProjectPath (Itoa stack.ID))
        let stack := { stack with ProjectPath := projectPath }
        let gitCloneParams : cloneRepositoryParameters :=
          { url := payload.RepositoryURL
            referenceName := payload.RepositoryReferenceName
            path := projectPath
            authentication := payload.RepositoryAuthentication
            username := payload.RepositoryUsername
            password := payload.RepositoryPassword }
        let (result, stack, doCleanUp) ← (do
          match ← call (Call.cloneGitRepository gitCloneParams)
              (h.cloneGitRepository gitCloneParams) with
          | some err =>
            pure (some ⟨StatusInternalServerError, "Unable to clone git repository", err⟩,
              stack, true)
          | none => deployAndPersist h r stack endpoint userID)
        cleanUp h stack doCleanUp
        pure result

/-- The method `Handler.createComposeStackFromFileUpload`. -/
def createComposeStackFromFileUpload {σ : Type} (h : Handler σ) (r : Request)
    (endpoint : Endpoint) (userID : Int) : Exec σ (Option HandlerError) := do
  match decodeRequestForm r with
  | Except.error err => pure (some ⟨StatusBadRequest, "Invalid request payload", err⟩)
  | Except.ok payload =>
    let name ← call (Call.NormalizeStackName payload.Name) (h.NormalizeStackName payload.Name)
    let payload := { payload with Name := name }
    match ← call (Call.checkUniqueName endpoint payload.Name 0 false)
        (h.checkUniqueName endpoint payload.Name 0 false) with
    | Except.error err =>
      pure (some ⟨StatusInternalServerError, "Unable to check for name collision", err⟩)
    | Except.ok isUnique =>
      if !isUnique then
        let errorMessage := "A stack with the name \x27" ++ payload.Name ++ "\x27 already exists"
        pure (some ⟨StatusConflict, errorMessage, errorMessage⟩)
      else
        let stackID ← call Call.GetNextIdentifier h.GetNextIdentifier
        let now ← call Call.Now h.Now
        let stack : Stack :=
          { ID := stackID
            Name := payload.Name
            Type_ := StackType.DockerComposeStack
            EndpointID := endpoint.ID
            EntryPoint := h.ComposeFileDefaultName
            Env := payload.Env
            Status := StackStatus.StackStatusActive
            CreationDate := now
            ProjectPath := ""
            CreatedBy := "" }
        let stackFolder := Itoa stack.ID
        match ← call
            (Call.StoreStackFileFromBytes stackFolder stack.EntryPoint payload.StackFileContent)
            (h.StoreStackFileFromBytes stackFolder stack.EntryPoint payload.StackFileContent) with
        | Except.error err =>
          pure (some ⟨StatusInternalServerError, "Unable to persist Compose file on disk", err⟩)
        | Except.ok projectPath =>
          let stack := { stack with ProjectPath := projectPath }
          let (result, stack, doCleanUp) ← deployAndPersist h r stack endpoint userID
          cleanUp h stack doCleanUp
          pure result

/-- The statements that `createComposeStackFromFileContent` and `createComposeStackFromFileUpload`
have in common, as a function of what the payload decoded to (name, content bytes, environment)
and of the end of the conflict message, the only text in which the two flows differ. -/
def createComposeStackFromBytes {σ : Type} (h : Handler σ) (r : Request) (endpoint : Endpoint)
    (userID : Int) (decoded : Except Error (String × Bytes × List Pair))
    (conflictEnding : String) : Exec σ (Option HandlerError) := do
  match decoded with
  | Except.error err => pure (some ⟨StatusBadRequest, "Invalid request payload", err⟩)
  | Except.ok (payloadName, stackFileContent, env) =>
    let name ← call (Call.NormalizeStackName payloadName) (h.NormalizeStackName payloadName)
    match ← call (Call.checkUniqueName endpoint name 0 false)
        (h.checkUniqueName endpoint name 0 false) with
    | Except.error err =>
      pure (some ⟨StatusInternalServerError, "Unable to check for name collision", err⟩)
    | Except.ok isUnique =>
      if !isUnique then
        let errorMessage := "A stack with the name \x27" ++ name ++ conflictEnding
        pure (some ⟨StatusConflict, errorMessage, errorMessage⟩)
      else
        let stackID ← call Call.GetNextIdentifier h.GetNextIdentifier
        let now ← call Call.Now h.Now
        let stack : Stack :=
          { ID := stackID
            Name := name
            Type_ := StackType.DockerComposeStack
            EndpointID := endpoint.ID
            EntryPoint := h.ComposeFileDefaultName
            Env := env
            Status := StackStatus.StackStatusActive
            CreationDate := now
            ProjectPath := ""
            CreatedBy := "" }
        let stackFolder := Itoa stack.ID
        match ← call
            (Call.StoreStackFileFromBytes stackFolder stack.EntryPoint stackFileContent)
            (h.StoreStackFileFromBytes stackFolder stack.EntryPoint stackFileContent) with
        | Except.error err =>
          pure (some ⟨StatusInternalServerError, "Unable to persist Compose file on disk", err⟩)
        | Except.ok projectPath =>
          let stack := { stack with ProjectPath := projectPath }
          let (result, stack, doCleanUp) ← deployAndPersist h r stack endpoint userID
          cleanUp h stack doCleanUp
          pure result

/-- What the payload of the inline-content flow decodes to. -/
def decodedFileContent (r : Request) : Except Error (String × Bytes × List Pair) :=
  match DecodeAndValidateJSONPayload r.jsonFileContent
      composeStackFromFileContentPayload.Validate with
  | Except.error err => Except.error err
  | Except.ok payload =>
    Except.ok (payload.Name, bytesOfString payload.StackFileContent, payload.Env)

/-- What the payload of the file-upload flow decodes to. -/
def decodedFileUpload (r : Request) : Except Error (String × Bytes × List Pair) :=
  match decodeRequestForm r with
  | Except.error err => Except.error err
  | Except.ok payload => Except.ok (payload.Name, payload.StackFileContent, payload.Env)

/-! ## Properties of runs -/

/-- Total correctness with the trace made explicit: from `s` the computation returns, it appends
the events `T` to the trace, and `Q` holds of the result, the final world, the final state of the
mutex and `T`. -/
def Exec.run {σ α : Type} (x : Exec σ α) (s : State σ)
    (Q : α → σ → Bool → List Event → Prop) : Prop :=
  ∃ a s1 T, x s = some (a, s1) ∧ s1.trace = s.trace ++ T ∧ Q a s1.world s1.stackCreationMutex T

/-- The property `Exec.run` from a given world and mutex, whatever the trace so far. -/
def Exec.runFrom {σ α : Type} (x : Exec σ α) (w : σ) (m : Bool)
    (Q : α → σ → Bool → List Event → Prop) : Prop :=
  ∀ t, Exec.run x ⟨w, m, t⟩ Q

/-- Partial correctness: if the computation returns from `s`, its result and final state satisfy
the postcondition. -/
def Exec.returns {σ α : Type} (x : Exec σ α) (s : State σ) (Q : α → State σ → Prop) : Prop :=
  ∀ a s1, x s = some (a, s1) → Q a s1

/-- The calls made inside the credential critical section. -/
def Call.isCredentialCall : Call → Bool
  | Call.Login _ _ _ => true
  | Call.Up _ _ _ => true
  | Call.Logout _ _ => true
  | _ => false

/-- The call reads a file back from project storage. -/
def Call.isGetFileContent : Call → Bool
  | Call.GetFileContent _ _ => true
  | _ => false

/-- The call invokes the security policy validator. -/
def Call.isValidatorCall : Call → Bool
  | Call.isValidStackFile _ _ _ => true
  | _ => false

/-- The call is `Login`. -/
def Call.isLogin : Call → Bool
  | Call.Login _ _ _ => true
  | _ => false

/-- The call is `ComposeStackManager.Up`. -/
def Call.isUp : Call → Bool
  | Call.Up _ _ _ => true
  | _ => false

/-- The call is `SwarmStackManager.Logout`. -/
def Call.isLogout : Call → Bool
  | Call.Logout _ _ => true
  | _ => false

/-- The call acquires `stackCreationMutex`. -/
def Call.isLock : Call → Bool
  | Call.Lock => true
  | _ => false

/-- Some call of the trace satisfies `p`. -/
def calls (p : Call → Bool) (T : List Event) : Bool := T.any (fun e => p e.call)

/-- The events of the trace whose call satisfies `p`, in order. -/
def callsOf (p : Call → Bool) (T : List Event) : List Event := T.filter (fun e => p e.call)

/-- At least one of the five endpoint permissions is disallowed. -/
def somePermissionDisallowed (securitySettings : EndpointSecuritySettings) : Prop :=
  securitySettings.AllowBindMountsForRegularUsers = false ∨
  securitySettings.AllowPrivilegedModeForRegularUsers = false ∨
  securitySettings.AllowHostNamespaceForRegularUsers = false ∨
  securitySettings.AllowDeviceMappingForRegularUsers = false ∨
  securitySettings.AllowContainerCapabilitiesForRegularUsers = false

/-- The error a failed read of the stack file, or a rejection by the validator, returns. -/
def Call.policyError : Call → Option Error
  | Call.GetFileContent _ (Except.error err) => some err
  | Call.isValidStackFile _ _ (some err) => some err
  | _ => none

/-- The call is the failure of one of the three steps that follow source materialization:
`createComposeDeployConfig` or `deployComposeStack` returning an error, or `CreateStack` failing. -/
def Call.isRollbackCause : Call → Bool
  | Call.createComposeDeployConfig _ _ (Except.error _) => true
  | Call.deployComposeStack _ (some _) => true
  | Call.CreateStack _ (some _) => true
  | _ => false

/-- The path the call materialized the source under: the path a successful store of the stack
file returned, or the destination of a successful clone. -/
def Call.materializedPath : Call → Option String
  | Call.StoreStackFileFromBytes _ _ _ (Except.ok storedPath) => some storedPath
  | Call.cloneGitRepository parameters none => some parameters.path
  | _ => none

/-- The directory a `RemoveDirectory` call removes. -/
def Call.removedDirectory : Call → Option String
  | Call.RemoveDirectory directoryPath _ => some directoryPath
  | _ => none

/-- The paths under which source was materialized during a run, in order. -/
def materializedPaths (T : List Event) : List String :=
  T.filterMap (fun e => e.call.materializedPath)

/-- The directories removed during a run, in order. -/
def removedDirectories (T : List Event) : List String :=
  T.filterMap (fun e => e.call.removedDirectory)

/-- The rollback property of a run with result `res` and events `T`: if one of the three steps
after materialization failed, the flow returns an error, and the last thing it did is the deferred
`cleanUp` of a stack with `doCleanUp` true; the one directory under which source was materialized
is the `ProjectPath` of that stack, and it is the one directory that was removed. -/
def RollsBack (res : Option HandlerError) (T : List Event) : Prop :=
  calls Call.isRollbackCause T = true →
    res.isSome = true ∧
    ∃ stack, T.getLast? = some ⟨Call.cleanUp stack true, false⟩ ∧
      materializedPaths T = [stack.ProjectPath] ∧
      removedDirectories T = [stack.ProjectPath]

/-- The stack a `CreateStack` call persists. -/
def Call.createdStack : Call → Option Stack
  | Call.CreateStack stack _ => some stack
  | _ => none

/-- The call is `DataStore.Stack().CreateStack`. -/
def Call.isCreateStack : Call → Bool
  | Call.CreateStack _ _ => true
  | _ => false

/-- The call is `deployComposeStack` returning nil. -/
def Call.isDeploySuccess : Call → Bool
  | Call.deployComposeStack _ none => true
  | _ => false

/-- The call is `ComposeStackManager.Up` returning nil. -/
def Call.isUpSuccess : Call → Bool
  | Call.Up _ _ none => true
  | _ => false

/-- The call deploys (`deployComposeStack` and the stack-manager calls it makes) or materializes
source (`StoreStackFileFromBytes`, `cloneGitRepository`). -/
def Call.deploysOrMaterializes : Call → Bool
  | Call.StoreStackFileFromBytes _ _ _ _ => true
  | Call.cloneGitRepository _ _ => true
  | Call.deployComposeStack _ _ => true
  | Call.Login _ _ _ => true
  | Call.Up _ _ _ => true
  | Call.Logout _ _ => true
  | _ => false

/-- The stacks handed to `CreateStack` during a run, in order. -/
def createdStacks (T : List Event) : List Stack := T.filterMap (fun e => e.call.createdStack)

/-- The events of a run before its first `CreateStack`. -/
def beforeCreateStack (T : List Event) : List Event :=
  T.takeWhile (fun e => !e.call.isCreateStack)

/-- The events of a run after its first `CreateStack`. -/
def afterCreateStack (T : List Event) : List Event :=
  (T.dropWhile (fun e => !e.call.isCreateStack)).drop 1

/-- Persistence is the last step: either `CreateStack` is not called, or it is called exactly
once, on a stack such that, before the call, `deployComposeStack` has returned nil, `Up` has
succeeded and the source was materialized under the `ProjectPath` of the stack, and such that,
after the call, nothing that deploys or materializes source is called. -/
def PersistsLast (T : List Event) : Prop :=
  createdStacks T = [] ∨
  ∃ stack, createdStacks T = [stack] ∧
    calls Call.isDeploySuccess (beforeCreateStack T) = true ∧
    calls Call.isUpSuccess (beforeCreateStack T) = true ∧
    materializedPaths (beforeCreateStack T) = [stack.ProjectPath] ∧
    calls Call.deploysOrMaterializes (afterCreateStack T) = false

/-- The call is `checkUniqueName`. -/
def Call.isCheckUniqueName : Call → Bool
  | Call.checkUniqueName _ _ _ _ _ => true
  | _ => false

/-- The call is `checkUniqueName` reporting that the name is not unique. -/
def Call.reportsNameTaken : Call → Bool
  | Call.checkUniqueName _ _ _ _ (Except.ok false) => true
  | _ => false

/-- The call is `checkUniqueName` reporting that the name is unique. -/
def Call.reportsNameUnique : Call → Bool
  | Call.checkUniqueName _ _ _ _ (Except.ok true) => true
  | _ => false

/-- The calls that a create flow makes only once the name is known to be unique:
`GetNextIdentifier`, `StoreStackFileFromBytes`, `GetStackProjectPath`, `cloneGitRepository`,
`deployComposeStack`, `CreateStack` and `cleanUp`. -/
def Call.followsUniqueCheck : Call → Bool
  | Call.GetNextIdentifier _ => true
  | Call.StoreStackFileFromBytes _ _ _ _ => true
  | Call.GetStackProjectPath _ _ => true
  | Call.cloneGitRepository _ _ => true
  | Call.deployComposeStack _ _ => true
  | Call.CreateStack _ _ => true
  | Call.cleanUp _ _ => true
  | _ => false

/-- The uniqueness checks made during a run, in order. -/
def uniqueChecks (T : List Event) : List Call :=
  (callsOf Call.isCheckUniqueName T).map Event.call

/-- The events of a run before its first uniqueness check. -/
def beforeUniqueCheck (T : List Event) : List Event :=
  T.takeWhile (fun e => !e.call.isCheckUniqueName)

/-- The fail-fast property of a run on `endpoint` with result `res` and events `T`: the
uniqueness check, when there is one, is made once, on `endpoint`, with exclude stack ID 0; none
of the calls of `Call.followsUniqueCheck` is made before it; and if it reports that the name is
taken, the flow answers 409 and makes none of those calls at all. -/
def FailsFastOnConflict (endpoint : Endpoint) (res : Option HandlerError) (T : List Event) :
    Prop :=
  (uniqueChecks T = [] ∨
    ∃ name result, uniqueChecks T = [Call.checkUniqueName endpoint name 0 false result]) ∧
  calls Call.followsUniqueCheck (beforeUniqueCheck T) = false ∧
  (calls Call.reportsNameTaken T = true →
    res.map HandlerError.StatusCode = some StatusConflict ∧
    calls Call.followsUniqueCheck T = false)

/-- The stack a call receives, for the calls that receive one. -/
def Call.stackArgument : Call → Option Stack
  | Call.Up stack _ _ => some stack
  | Call.CreateStack stack _ => some stack
  | Call.decorateStackResponse stack _ _ => some stack
  | Call.createComposeDeployConfig stack _ _ => some stack
  | Call.deployComposeStack config _ => some config.stack
  | Call.cleanUp stack _ => some stack
  | _ => none

/-- The destination path a `cloneGitRepository` call receives. -/
def Call.cloneDestination : Call → Option String
  | Call.cloneGitRepository parameters _ => some parameters.path
  | _ => none

/-- The call is `cloneGitRepository`. -/
def Call.isClone : Call → Bool
  | Call.cloneGitRepository _ _ => true
  | _ => false

/-- The argument and the result of a `GetStackProjectPath` call. -/
def Call.projectPathComputed : Call → Option (String × String)
  | Call.GetStackProjectPath stackIdentifier result => some (stackIdentifier, result)
  | _ => none

/-- The stacks handed to calls during a run, in order. -/
def stacksOf (T : List Event) : List Stack := T.filterMap (fun e => e.call.stackArgument)

/-- The destinations of the clones made during a run, in order. -/
def cloneDestinations (T : List Event) : List String :=
  T.filterMap (fun e => e.call.cloneDestination)

/-- The project paths computed during a run before its first clone, with the stack identifier
each was computed for. -/
def projectPathsBeforeClone (T : List Event) : List (String × String) :=
  (T.takeWhile (fun e => !e.call.isClone)).filterMap (fun e => e.call.projectPathComputed)

/-- The source-resolution property of a run of the git flow on `payload` with events `T`: once
the name is known to be unique, the stack is handed to some call; and whenever it is, there are
a stack ID and a project path such that `GetStackProjectPath` was called, once and before the
clone, on the decimal string of the ID and returned the path, the clone was made once, into that
path, and every stack handed out has that ID, that `ProjectPath`, and the entry point of the
payload, or the default name when that is empty. -/
def ResolvesGitSource (defaultName : String) (payload : composeStackFromGitRepositoryPayload)
    (T : List Event) : Prop :=
  (calls Call.reportsNameUnique T = true → (stacksOf T).isEmpty = false) ∧
  (stacksOf T = [] ∨
    ∃ stackID projectPath,
      projectPathsBeforeClone T = [(Itoa stackID, projectPath)] ∧
      cloneDestinations T = [projectPath] ∧
      ∀ stack ∈ stacksOf T,
        stack.ID = stackID ∧ stack.ProjectPath = projectPath ∧
        stack.EntryPoint =
          (if payload.ComposeFilePathInRepository = "" then defaultName
           else payload.ComposeFilePathInRepository))

/-- The call is a `cloneGitRepository` that returned an error. -/
def Call.isCloneFailure : Call → Bool
  | Call.cloneGitRepository _ (some _) => true
  | _ => false

/-- The call is `deployComposeStack` returning, one of the calls `deployComposeStack` makes, or
`CreateStack`. -/
def Call.deploysOrPersists : Call → Bool
  | Call.userIsAdminOrEndpointAdmin _ _ _ => true
  | Call.Lock => true
  | Call.Login _ _ _ => true
  | Call.Up _ _ _ => true
  | Call.Logout _ _ => true
  | Call.deployComposeStack _ _ => true
  | Call.CreateStack _ _ => true
  | _ => false

/-- The arguments of a `cleanUp` call: the stack, and the value of `doCleanUp` when the deferred
call runs. -/
def Call.cleanUpArguments : Call → Option (Stack × Bool)
  | Call.cleanUp stack doCleanUp => some (stack, doCleanUp)
  | _ => none

/-- The `cleanUp` calls of a run, in order. -/
def cleanUps (T : List Event) : List (Stack × Bool) :=
  T.filterMap (fun e => e.call.cleanUpArguments)

/-- The clone-failure property of a run of the git flow with result `res` and events `T`: if the
clone returned an error, the flow answers 500, neither `deployComposeStack` nor `CreateStack` is
called, and the one `cleanUp` of the run, its last call, has `doCleanUp` true and a stack whose
`ProjectPath` is the destination of the clone; that directory is the one removed. -/
def AbortsOnCloneFailure (res : Option HandlerError) (T : List Event) : Prop :=
  calls Call.isCloneFailure T = true →
    res.map HandlerError.StatusCode = some StatusInternalServerError ∧
    calls Call.deploysOrPersists T = false ∧
    ∃ stack, cleanUps T = [(stack, true)] ∧
      T.getLast? = some ⟨Call.cleanUp stack true, false⟩ ∧
      cloneDestinations T = [stack.ProjectPath] ∧
      removedDirectories T = [stack.ProjectPath]

/-- The argument and the result of a `NormalizeStackName` call. -/
def Call.normalizedName : Call → Option (String × String)
  | Call.NormalizeStackName name result => some (name, result)
  | _ => none

/-- The identifier a `GetNextIdentifier` call returned. -/
def Call.nextIdentifier : Call → Option Int
  | Call.GetNextIdentifier result => some result
  | _ => none

/-- The time a reading of the clock returned. -/
def Call.clockReading : Call → Option Int
  | Call.Now result => some result
  | _ => none

/-- The arguments and the result of a `StoreStackFileFromBytes` call. -/
def Call.storedFile : Call → Option (String × String × Bytes × Except Error String)
  | Call.StoreStackFileFromBytes stackIdentifier fileName data result =>
    some (stackIdentifier, fileName, data, result)
  | _ => none

/-- The identifier a successful `User` call was made with, and the user it returned. -/
def Call.loadedUser : Call → Option (Int × Portainer.User)
  | Call.User ID (Except.ok user) => some (ID, user)
  | _ => none

/-- The name normalizations of a run, in order. -/
def normalizedNames (T : List Event) : List (String × String) :=
  T.filterMap (fun e => e.call.normalizedName)

/-- The identifiers allocated during a run, in order. -/
def nextIdentifiers (T : List Event) : List Int := T.filterMap (fun e => e.call.nextIdentifier)

/-- The readings of the clock during a run, in order. -/
def clockReadings (T : List Event) : List Int := T.filterMap (fun e => e.call.clockReading)

/-- The stack files stored during a run, in order. -/
def storedFiles (T : List Event) : List (String × String × Bytes × Except Error String) :=
  T.filterMap (fun e => e.call.storedFile)

/-- The users loaded during a run, in order. -/
def loadedUsers (T : List Event) : List (Int × Portainer.User) := T.filterMap (fun e => e.call.loadedUser)

/-- The record property of a run of the inline-content or file-upload statements on a payload
that decoded to `payloadName`, `stackFileContent` and `env`, for a request with security context
`securityContext`: either `CreateStack` is not called, or the name was normalized once, one
identifier was allocated, the clock was read once, the content bytes were stored once, under the
decimal string of the identifier and the default entry-point name, the user of the security
context was loaded, and the one record handed to `CreateStack` is built from exactly these. -/
def PersistsRecord (defaultName : String) (endpoint : Endpoint)
    (securityContext : Except Error RestrictedRequestContext) (payloadName : String)
    (stackFileContent : Bytes) (env : List Pair) (T : List Event) : Prop :=
  createdStacks T = [] ∨
  ∃ name stackID now projectPath actor user,
    securityContext = Except.ok actor ∧
    normalizedNames T = [(payloadName, name)] ∧
    nextIdentifiers T = [stackID] ∧
    clockReadings T = [now] ∧
    storedFiles T = [(Itoa stackID, defaultName, stackFileContent, Except.ok projectPath)] ∧
    loadedUsers T = [(actor.UserID, user)] ∧
    createdStacks T =
      [{ ID := stackID
         Name := name
         Type_ := StackType.DockerComposeStack
         EndpointID := endpoint.ID
         EntryPoint := defaultName
         Env := env
         Status := StackStatus.StackStatusActive
         CreationDate := now
         ProjectPath := projectPath
         CreatedBy := user.Username }]

/-- The call is a `StoreStackFileFromBytes` that returned an error. -/
def Call.isStoreFailure : Call → Bool
  | Call.StoreStackFileFromBytes _ _ _ (Except.error _) => true
  | _ => false

/-- The calls that roll back, deploy or persist: `cleanUp` and the `RemoveDirectory` it makes,
`createComposeDeployConfig`, `deployComposeStack` and the calls it makes, and `CreateStack`. -/
def Call.rollsBackDeploysOrPersists : Call → Bool
  | Call.cleanUp _ _ => true
  | Call.RemoveDirectory _ _ => true
  | Call.createComposeDeployConfig _ _ _ => true
  | c => c.deploysOrPersists

/-- The store-failure property of a run with result `res` and events `T`: if storing the stack
file returned an error, that call is the last of the run, the flow answers 500, and nothing was
rolled back, deployed or persisted. -/
def AbortsOnStoreFailure (res : Option HandlerError) (T : List Event) : Prop :=
  calls Call.isStoreFailure T = true →
    res.map HandlerError.StatusCode = some StatusInternalServerError ∧
    T.getLast?.map (fun e => e.call.isStoreFailure) = some true ∧
    calls Call.rollsBackDeploysOrPersists T = false

/-- The call is `CreateStack` returning nil. -/
def Call.isCreateSuccess : Call → Bool
  | Call.CreateStack _ none => true
  | _ => false

/-- The disarming property of a run for the user `userID` with result `res` and events `T`: if
`CreateStack` returned nil, the record it persisted is followed by exactly two calls,
`decorateStackResponse` on that record, whose result is the result of the flow, and the deferred
`cleanUp` of that record with `doCleanUp` false; no directory is removed during the run. -/
def DisarmsCleanUp (userID : Int) (res : Option HandlerError) (T : List Event) : Prop :=
  calls Call.isCreateSuccess T = true →
    ∃ stack,
      createdStacks T = [stack] ∧
      afterCreateStack T =
        [⟨Call.decorateStackResponse stack userID res, false⟩,
         ⟨Call.cleanUp stack false, false⟩] ∧
      cleanUps T = [(stack, false)] ∧
      removedDirectories T = []

/-- The call is `Logout` returning an error. -/
def Call.isLogoutFailure : Call → Bool
  | Call.Logout _ (some _) => true
  | _ => false

/-- The call is `Logout` returning nil. -/
def Call.isLogoutSuccess : Call → Bool
  | Call.Logout _ none => true
  | _ => false

/-- The error a failed `Logout` returned. -/
def Call.logoutError : Call → Option Error
  | Call.Logout _ (some err) => some err
  | _ => none

/-- What a `deployComposeStack` call returned. -/
def Call.deployResult : Call → Option (Option Error)
  | Call.deployComposeStack _ result => some result
  | _ => none

/-- The errors of the failed `Logout` calls of a run, in order. -/
def logoutErrors (T : List Event) : List Error := T.filterMap (fun e => e.call.logoutError)

/-- The results of the `deployComposeStack` calls of a run, in order. -/
def deployResults (T : List Event) : List (Option Error) :=
  T.filterMap (fun e => e.call.deployResult)

/-- The logout property of a run of `deployComposeStack` with result `err` and events `T`: if
`Logout` returned an error, `Up` had succeeded and that error is the result; and the result is
nil only if `Up` and `Logout` both returned nil. -/
def ReportsLogoutError (err : Option Error) (T : List Event) : Prop :=
  (calls Call.isLogoutFailure T = true →
    calls Call.isUpSuccess T = true ∧ logoutErrors T = err.toList ∧ err.isSome = true) ∧
  (err.isNone = true →
    calls Call.isUpSuccess T = true ∧ calls Call.isLogoutSuccess T = true)

/-- The logout property of a run of a create flow with result `res` and events `T`: if `Logout`
returned an error, `Up` had succeeded, `deployComposeStack` returned that error, the flow answers
500 with that error, `CreateStack` is not called, and the one `cleanUp` of the run, its last
call, has `doCleanUp` true and removes the project directory of its stack. -/
def FailsOnLogoutError (res : Option HandlerError) (T : List Event) : Prop :=
  calls Call.isLogoutFailure T = true →
    calls Call.isUpSuccess T = true ∧
    createdStacks T = [] ∧
    ∃ err stack,
      logoutErrors T = [err] ∧
      deployResults T = [some err] ∧
      res = some ⟨StatusInternalServerError, err, err⟩ ∧
      cleanUps T = [(stack, true)] ∧
      T.getLast? = some ⟨Call.cleanUp stack true, false⟩ ∧
      removedDirectories T = [stack.ProjectPath]

/-! ## Concrete collaborators, for the evaluations -/

/-- Collaborators over a one-point world, all of which succeed: names are kept as they are, every
name is unique, the next identifier is 7, files are stored under `/data/compose/<id>`, the actor
is a regular user, and every stack file is valid. -/
def quietHandler : Handler Unit where
  ComposeFileDefaultName := "docker-compose.yml"
  pathJoin := fun a b => a ++ "/" ++ b
  IsURL := fun _ => true
  FilterRegistries := fun registries _ => registries
  Now := fun w => (1600000000, w)
  NormalizeStackName := fun name w => (name, w)
  checkUniqueName := fun _ _ _ _ w => (Except.ok true, w)
  GetNextIdentifier := fun w => (7, w)
  StoreStackFileFromBytes := fun folder _ _ w => (Except.ok ("/data/compose/" ++ folder), w)
  GetStackProjectPath := fun folder w => ("/data/compose/" ++ folder, w)
  cloneGitRepository := fun _ w => (none, w)
  Registries := fun w => (Except.ok [], w)
  userIsAdminOrEndpointAdmin := fun _ _ w => (Except.ok false, w)
  GetFileContent := fun _ w => (Except.ok [], w)
  isValidStackFile := fun _ _ w => (none, w)
  Login := fun _ _ _ w => ((), w)
  Up := fun _ _ w => (none, w)
  Logout := fun _ w => (none, w)
  CreateStack := fun _ w => (none, w)
  RemoveDirectory := fun _ w => (none, w)
  decorateStackResponse := fun _ _ w => (none, w)
  DockerHub := fun w => (Except.ok ⟨false, ""⟩, w)
  User := fun ID w => (Except.ok ⟨ID, "alice"⟩, w)

/-- An endpoint on which every permission is disallowed for regular users. -/
def lockedDownEndpoint : Endpoint :=
  { ID := 5, SecuritySettings := ⟨false, false, false, false, false⟩ }

/-- An endpoint on which every permission is allowed for regular users. -/
def permissiveEndpoint : Endpoint :=
  { ID := 5, SecuritySettings := ⟨true, true, true, true, true⟩ }

/-- A stack whose source has been materialized under `/data/compose/7`. -/
def sampleStack : Stack :=
  { ID := 7
    Name := "web"
    Type_ := StackType.DockerComposeStack
    EndpointID := 5
    EntryPoint := "docker-compose.yml"
    Env := []
    Status := StackStatus.StackStatusActive
    CreationDate := 1600000000
    ProjectPath := "/data/compose/7"
    CreatedBy := "" }

/-- A deployment configuration for `sampleStack` on the given endpoint. -/
def sampleConfig (endpoint : Endpoint) : composeStackDeploymentConfig :=
  { stack := sampleStack
    endpoint := endpoint
    dockerhub := ⟨false, ""⟩
    registries := []
    isAdmin := false
    user := ⟨2, "alice"⟩ }

/-- Two deployments: goroutine 0 deploys to the permissive endpoint, every other goroutine to
the locked-down endpoint. -/
def twoDeployments (i : Nat) : composeStackDeploymentConfig :=
  if i = 0 then sampleConfig permissiveEndpoint else sampleConfig lockedDownEndpoint

/-- The initial state: the mutex is free and nothing has been called. -/
def freshState : State Unit := ⟨(), false, []⟩

/-- The quiet collaborators, except that reading a file back fails. -/
def readFailureHandler : Handler Unit :=
  { quietHandler with GetFileContent := fun _ w => (Except.error "no such file", w) }

/-- The quiet collaborators, except that the validator rejects every stack file. -/
def rejectingHandler : Handler Unit :=
  { quietHandler with
    isValidStackFile := fun _ _ w => (some "privileged mode disabled for non administrator users", w) }

/-- The quiet collaborators, except that `ComposeStackManager.Up` fails. -/
def upFailureHandler : Handler Unit :=
  { quietHandler with Up := fun _ _ w => (some "compose up failed", w) }

/-- The quiet collaborators, except that persisting the stack record fails. -/
def createFailureHandler : Handler Unit :=
  { quietHandler with CreateStack := fun _ w => (some "database is closed", w) }

/-- The quiet collaborators, except that every name is reported as taken. -/
def conflictHandler : Handler Unit :=
  { quietHandler with checkUniqueName := fun _ _ _ _ w => (Except.ok false, w) }

/-- A valid payload of the git flow, with no `ComposeFilePathInRepository`. -/
def sampleGitPayload : composeStackFromGitRepositoryPayload :=
  { Name := "app"
    RepositoryURL := "https://github.com/openfaas/faas"
    RepositoryReferenceName := "refs/heads/master"
    RepositoryAuthentication := false
    RepositoryUsername := ""
    RepositoryPassword := ""
    ComposeFilePathInRepository := ""
    Env := [] }

/-- A request that decodes for each of the three flows, made by the regular user 2. -/
def sampleRequest : Request :=
  { jsonFileContent := Except.ok { Name := "web", StackFileContent := "v1", Env := [] }
    jsonGitRepository := Except.ok sampleGitPayload
    formName := some "web"
    formFile := some [118, 49]
    formEnv := some []
    securityContext := Except.ok ⟨false, 2⟩ }

/-- The quiet collaborators, except that cloning the repository fails. -/
def cloneFailureHandler : Handler Unit :=
  { quietHandler with cloneGitRepository := fun _ w => (some "repository not found", w) }

/-- The quiet collaborators, except that storing the stack file fails. -/
def storeFailureHandler : Handler Unit :=
  { quietHandler with
    StoreStackFileFromBytes := fun _ _ _ w => (Except.error "no space left on device", w) }

/-- The quiet collaborators, except that `SwarmStackManager.Logout` fails. -/
def logoutFailureHandler : Handler Unit :=
  { quietHandler with Logout := fun _ w => (some "logout failed", w) }

/-- The quiet collaborators, except that decorating the response fails. -/
def decorateFailureHandler : Handler Unit :=
  { quietHandler with
    decorateStackResponse := fun _ _ w =>
      (some ⟨500, "Unable to retrieve a resource control associated to the stack",
        "object not found"⟩, w) }

/-! ## The version service (api/bolt/version/version.go) -/

/-- The constant `versionKey`. -/
def versionKey : String := "DB_VERSION"

/-- Modelled from the spec: the not-found signal of the metadata store, distinguishable from
other failures (`errors.ErrObjectNotFound` is declared outside the embedded files). -/
def ErrObjectNotFound : Error := "Object not found inside the database"

/-- The error `strconv.ErrSyntax`. -/
def ErrSyntax : Error := "invalid syntax"

/-- The error `strconv.ErrRange`. -/
def ErrRange : Error := "value out of range"

/-- The constant `strconv.IntSize`, the size in bits of an `int`, on a 64-bit platform. -/
def intSize : Nat := 64

/-- The byte is one of the ASCII digits `0` to `9`. -/
def isDigitByte (ch : UInt8) : Bool := decide (48 ≤ ch.toNat) && decide (ch.toNat ≤ 57)

/-- The function `strconv.Atoi`, on the bytes of its argument (a Go string is its sequence of
bytes, so `string(data)` and `[]byte(s)` do not change them): an optional sign followed by decimal
digits.  A malformed argument gives `(0, ErrSyntax)`; a value that does not fit an `int` gives the
nearest `int` and `ErrRange`. -/
def Atoi (s : Bytes) : Int × Option Error :=
  let neg : Bool := s.head? == some 45
  let digits : Bytes := if s.head? == some 45 || s.head? == some 43 then s.drop 1 else s
  if digits.isEmpty || !digits.all isDigitByte then (0, some ErrSyntax)
  else
    let un : Nat := digits.foldl (fun n ch => n * 10 + (ch.toNat - 48)) 0
    if !neg && decide (2 ^ (intSize - 1) ≤ un) then (2 ^ (intSize - 1) - 1, some ErrRange)
    else if neg && decide (2 ^ (intSize - 1) < un) then (-(2 ^ (intSize - 1)), some ErrRange)
    else (if neg then -(un : Int) else (un : Int), none)

/-- A bucket of the bolt database: the keys written so far, each with the value it holds. -/
abbrev Bucket := List (Bytes × Bytes)

/-- The method `bolt.Bucket.Get`: the value stored under the key, nil when there is none. -/
def Bucket.Get (bucket : Bucket) (key : Bytes) : Option Bytes := bucket.lookup key

/-- The method `bolt.Bucket.Put`: store the value under the key, replacing what the key held.
The call fails, and changes nothing, for an empty key and for a key or a value over the size
limits of bolt. -/
def Bucket.Put (bucket : Bucket) (key value : Bytes) : Option Error × Bucket :=
  if key.length = 0 then (some "key required", bucket)
  else if 32768 < key.length then (some "key too large", bucket)
  else if 2147483646 < value.length then (some "value too large", bucket)
  else (none, (key, value) :: bucket.filter (fun entry => entry.1 != key))

/-- The bolt database behind the version service: whether it was opened read-only, and the
content of the bucket `BucketName`. -/
structure DB where
  readOnly : Bool
  bucket : Bucket
deriving DecidableEq, Repr

/-- The method `bolt.DB.View` on the bucket `BucketName`: run the function in a read-only
transaction; `captured` is the variable the function assigns to. -/
def DB.View {α : Type} (db : DB) (fn : Bucket → α → Option Error × α) (captured : α) :
    Option Error × α :=
  fn db.bucket captured

/-- The method `bolt.DB.Update` on the bucket `BucketName`: run the function in a read-write
transaction, which is committed when the function returns nil and rolled back when it returns an
error.  On a read-only database the transaction cannot begin. -/
def DB.Update (db : DB) (fn : Bucket → Option Error × Bucket) : Option Error × DB :=
  if db.readOnly then (some "database is in read-only mode", db)
  else
    match fn db.bucket with
    | (some err, _) => (some err, db)
    | (none, bucket) => (none, { db with bucket := bucket })

/-- The type `version.Service`. -/
structure Service where
  db : DB
deriving DecidableEq, Repr

/-- The method `Service.DBVersion`. -/
def Service.DBVersion (service : Service) : Int × Option Error :=
  let (err, data) := service.db.View
    (fun bucket data =>
      match bucket.Get (bytesOfString versionKey) with
      | none => (some ErrObjectNotFound, data)
      | some value => (none, value))
    []
  match err with
  | some err => (0, some err)
  | none => Atoi data

/-- The method `Service.StoreDBVersion`; the second component is the service afterwards. -/
def Service.StoreDBVersion (service : Service) (version : Int) : Option Error × Service :=
  let (err, db) := service.db.Update
    (fun bucket =>
      let data := bytesOfString (Itoa version)
      bucket.Put (bytesOfString versionKey) data)
  (err, { db := db })


/-- The ASCII digit of a number below ten, as a byte. -/
def digitByte (d : Nat) : UInt8 := UInt8.ofNat (48 + d)

/-- The number a sequence of ASCII digits denotes, as `strconv.Atoi` accumulates it. -/
def digitsValue (digits : Bytes) : Nat := digits.foldl (fun n ch => n * 10 + (ch.toNat - 48)) 0

/-! ## The calculus of runs -/

section Calculus

variable {σ α β : Type}

theorem run_pure (a : α) (w : σ) (m : Bool) (t : List Event)
    (Q : α → σ → Bool → List Event → Prop) (hq : Q a w m []) :
    Exec.run (pure a) ⟨w, m, t⟩ Q :=
  ⟨a, ⟨w, m, t⟩, [], rfl, (List.append_nil t).symm, hq⟩

theorem run_bind (x : Exec σ α) (f : α → Exec σ β) (s : State σ)
    (Q : β → σ → Bool → List Event → Prop)
    (hx : Exec.run x s (fun a w1 m1 T1 =>
      Exec.runFrom (f a) w1 m1 (fun b w2 m2 T2 => Q b w2 m2 (T1 ++ T2)))) :
    Exec.run (x >>= f) s Q := by
  obtain ⟨a, s1, T1, h1, e1, hf⟩ := hx
  obtain ⟨b, s2, T2, h2, e2, hq⟩ := hf s1.trace
  refine ⟨b, s2, T1 ++ T2, ?_, ?_, hq⟩
  · show Exec.bind x f s = _
    simp only [Exec.bind, h1]
    exact h2
  · rw [e2]
    show s1.trace ++ T2 = _
    rw [e1, List.append_assoc]

theorem runFrom_intro (x : Exec σ α) (w : σ) (m : Bool) (Q : α → σ → Bool → List Event → Prop)
    (hx : ∀ t, Exec.run x ⟨w, m, t⟩ Q) : Exec.runFrom x w m Q := hx

theorem run_call (c : α → Call) (f : σ → α × σ) (w : σ) (m : Bool) (t : List Event)
    (Q : α → σ → Bool → List Event → Prop)
    (hq : ∀ a w1, f w = (a, w1) → Q a w1 m [⟨c a, m⟩]) :
    Exec.run (call c f) ⟨w, m, t⟩ Q :=
  ⟨_, _, _, rfl, rfl, hq _ _ rfl⟩

theorem run_record (c : Call) (w : σ) (m : Bool) (t : List Event)
    (Q : Unit → σ → Bool → List Event → Prop) (hq : Q () w m [⟨c, m⟩]) :
    Exec.run (record c) ⟨w, m, t⟩ Q :=
  ⟨_, _, _, rfl, rfl, hq⟩

theorem run_Lock (w : σ) (t : List Event) (Q : Unit → σ → Bool → List Event → Prop)
    (hq : Q () w true [⟨Call.Lock, false⟩]) :
    Exec.run Lock ⟨w, false, t⟩ Q :=
  ⟨(), _, _, rfl, rfl, hq⟩

theorem run_Unlock (w : σ) (t : List Event) (Q : Unit → σ → Bool → List Event → Prop)
    (hq : Q () w false [⟨Call.Unlock, true⟩]) :
    Exec.run Unlock ⟨w, true, t⟩ Q :=
  ⟨(), _, _, rfl, rfl, hq⟩

theorem run_unless {α : Type} (b : Bool) (x y : Exec σ α) (s : State σ)
    (Q : α → σ → Bool → List Event → Prop)
    (hx : b = false → Exec.run x s Q) (hy : b = true → Exec.run y s Q) :
    Exec.run (if (!b) = true then x else y) s Q := by
  cases b
  · exact hx rfl
  · exact hy rfl

theorem policyCheckRequired_iff (securitySettings : EndpointSecuritySettings) (b : Bool) :
    policyCheckRequired securitySettings b = true ↔
      somePermissionDisallowed securitySettings ∧ b = false := by
  obtain ⟨p1, p2, p3, p4, p5⟩ := securitySettings
  cases p1 <;> cases p2 <;> cases p3 <;> cases p4 <;> cases p5 <;> cases b <;>
    simp [policyCheckRequired, somePermissionDisallowed]

end Calculus

/-! ## deployComposeStack: the policy check -/

section Deploy

variable {σ : Type}

/-- C4, amended.  `deployComposeStack` reads the stack file if and only if the actor is neither
an administrator nor an endpoint administrator and at least one of the five permissions is
disallowed; it invokes the validator if and only if, in addition, that read succeeded.  For an
administrator or endpoint administrator neither happens, whatever the settings and the file. -/
theorem deployComposeStack_policy_check_iff (h : Handler σ)
    (config : composeStackDeploymentConfig) (s : State σ) (hs : s.stackCreationMutex = false) :
    ∃ err s1 T, deployComposeStack h config s = some (err, s1) ∧ s1.trace = s.trace ++ T ∧
      (calls Call.isGetFileContent T = true ↔
        (h.userIsAdminOrEndpointAdmin config.user config.endpoint.ID s.world).1 = Except.ok false ∧
          somePermissionDisallowed config.endpoint.SecuritySettings) ∧
      (calls Call.isValidatorCall T = true ↔
        (h.userIsAdminOrEndpointAdmin config.user config.endpoint.ID s.world).1 = Except.ok false ∧
          somePermissionDisallowed config.endpoint.SecuritySettings ∧
          ∃ content, ⟨Call.GetFileContent
            (h.pathJoin config.stack.ProjectPath config.stack.EntryPoint) (Except.ok content),
            false⟩ ∈ T) ∧
      ((h.userIsAdminOrEndpointAdmin config.user config.endpoint.ID s.world).1 = Except.ok true →
        calls Call.isGetFileContent T = false ∧ calls Call.isValidatorCall T = false) := by
  obtain ⟨w, m, t⟩ := s
  subst hs
  show Exec.run (deployComposeStack h config) ⟨w, false, t⟩ (fun _ _ _ T =>
      (calls Call.isGetFileContent T = true ↔
        (h.userIsAdminOrEndpointAdmin config.user config.endpoint.ID w).1 = Except.ok false ∧
          somePermissionDisallowed config.endpoint.SecuritySettings) ∧
      (calls Call.isValidatorCall T = true ↔
        (h.userIsAdminOrEndpointAdmin config.user config.endpoint.ID w).1 = Except.ok false ∧
          somePermissionDisallowed config.endpoint.SecuritySettings ∧
          ∃ content, ⟨Call.GetFileContent
            (h.pathJoin config.stack.ProjectPath config.stack.EntryPoint) (Except.ok content),
            false⟩ ∈ T) ∧
      ((h.userIsAdminOrEndpointAdmin config.user config.endpoint.ID w).1 = Except.ok true →
        calls Call.isGetFileContent T = false ∧ calls Call.isValidatorCall T = false))
  unfold deployComposeStack deployComposeStackBody policyCheck credentialSection
  repeat' first
    | with_reducible apply run_bind
    | (with_reducible apply run_call; intro _ _ _)
    | with_reducible apply run_record
    | with_reducible apply run_Lock
    | with_reducible apply run_Unlock
    | with_reducible apply run_pure
    | (with_reducible apply runFrom_intro; intro _)
    | split
    | (dsimp only; split)
  all_goals simp_all [calls, Call.isGetFileContent, Call.isValidatorCall, policyCheckRequired_iff]
  all_goals aesop

/-- Witness of C4, amended: a regular user on an endpoint where everything is disallowed, with
collaborators that all succeed. -/
theorem deployComposeStack_policy_check_iff_witness :
    freshState.stackCreationMutex = false ∧
    ∃ err s1 T, deployComposeStack quietHandler (sampleConfig lockedDownEndpoint) freshState =
        some (err, s1) ∧ s1.trace = freshState.trace ++ T ∧
      (calls Call.isGetFileContent T = true ↔
        (quietHandler.userIsAdminOrEndpointAdmin (sampleConfig lockedDownEndpoint).user
            (sampleConfig lockedDownEndpoint).endpoint.ID freshState.world).1 = Except.ok false ∧
          somePermissionDisallowed (sampleConfig lockedDownEndpoint).endpoint.SecuritySettings) ∧
      (calls Call.isValidatorCall T = true ↔
        (quietHandler.userIsAdminOrEndpointAdmin (sampleConfig lockedDownEndpoint).user
            (sampleConfig lockedDownEndpoint).endpoint.ID freshState.world).1 = Except.ok false ∧
          somePermissionDisallowed (sampleConfig lockedDownEndpoint).endpoint.SecuritySettings ∧
          ∃ content, ⟨Call.GetFileContent
            (quietHandler.pathJoin (sampleConfig lockedDownEndpoint).stack.ProjectPath
              (sampleConfig lockedDownEndpoint).stack.EntryPoint) (Except.ok content),
            false⟩ ∈ T) ∧
      ((quietHandler.userIsAdminOrEndpointAdmin (sampleConfig lockedDownEndpoint).user
            (sampleConfig lockedDownEndpoint).endpoint.ID freshState.world).1 = Except.ok true →
        calls Call.isGetFileContent T = false ∧ calls Call.isValidatorCall T = false) :=
  ⟨rfl, deployComposeStack_policy_check_iff quietHandler (sampleConfig lockedDownEndpoint)
    freshState rfl⟩

/-- C4 as stated fails.  A regular user deploys on an endpoint where every permission is
disallowed, and reading the stack file back fails: the condition of the claim holds, the file is
read, and the validator is not invoked. -/
theorem deployComposeStack_validator_skipped_on_read_failure :
    ∃ s1, deployComposeStack readFailureHandler (sampleConfig lockedDownEndpoint) freshState =
        some (some "no such file", s1) ∧
      ¬ ((calls Call.isGetFileContent s1.trace = true ∧
            calls Call.isValidatorCall s1.trace = true) ↔
          ((readFailureHandler.userIsAdminOrEndpointAdmin (sampleConfig lockedDownEndpoint).user
              (sampleConfig lockedDownEndpoint).endpoint.ID freshState.world).1 =
              Except.ok false ∧
            somePermissionDisallowed
              (sampleConfig lockedDownEndpoint).endpoint.SecuritySettings)) := by
  refine ⟨_, rfl, ?_⟩
  intro hiff
  have hv := (hiff.mpr ⟨rfl, Or.inl rfl⟩).2
  revert hv
  decide

/-- C5.  For an actor that is neither administrator nor endpoint administrator, on an endpoint
with at least one permission disallowed: the stack file is read exactly once, at
`path.Join(stack.ProjectPath, stack.EntryPoint)`; the validator only ever receives the content that
read returned, with the endpoint's security settings; and when the read or the validator returns
an error, `deployComposeStack` returns that same error and has called none of `Lock`, `Login`,
`Up` and `Logout`. -/
theorem deployComposeStack_policy_failure (h : Handler σ)
    (config : composeStackDeploymentConfig) (s : State σ) (hs : s.stackCreationMutex = false)
    (hactor : (h.userIsAdminOrEndpointAdmin config.user config.endpoint.ID s.world).1 =
      Except.ok false)
    (hperm : somePermissionDisallowed config.endpoint.SecuritySettings) :
    ∃ err s1 T, deployComposeStack h config s = some (err, s1) ∧ s1.trace = s.trace ++ T ∧
      (∃ r, callsOf Call.isGetFileContent T = [⟨Call.GetFileContent
        (h.pathJoin config.stack.ProjectPath config.stack.EntryPoint) r, false⟩]) ∧
      (∀ e ∈ T, ∀ content securitySettings r,
        e.call = Call.isValidStackFile content securitySettings r →
          securitySettings = config.endpoint.SecuritySettings ∧
          ⟨Call.GetFileContent (h.pathJoin config.stack.ProjectPath config.stack.EntryPoint)
            (Except.ok content), false⟩ ∈ T) ∧
      (∀ e ∈ T, ∀ policyErr, e.call.policyError = some policyErr →
        err = some policyErr ∧ calls Call.isLock T = false ∧
          calls Call.isCredentialCall T = false) := by
  obtain ⟨w, m, t⟩ := s
  subst hs
  show Exec.run (deployComposeStack h config) ⟨w, false, t⟩ (fun err _ _ T =>
      (∃ r, callsOf Call.isGetFileContent T = [⟨Call.GetFileContent
        (h.pathJoin config.stack.ProjectPath config.stack.EntryPoint) r, false⟩]) ∧
      (∀ e ∈ T, ∀ content securitySettings r,
        e.call = Call.isValidStackFile content securitySettings r →
          securitySettings = config.endpoint.SecuritySettings ∧
          ⟨Call.GetFileContent (h.pathJoin config.stack.ProjectPath config.stack.EntryPoint)
            (Except.ok content), false⟩ ∈ T) ∧
      (∀ e ∈ T, ∀ policyErr, e.call.policyError = some policyErr →
        err = some policyErr ∧ calls Call.isLock T = false ∧
          calls Call.isCredentialCall T = false))
  unfold deployComposeStack deployComposeStackBody policyCheck credentialSection
  repeat' first
    | with_reducible apply run_bind
    | (with_reducible apply run_call; intro _ _ _)
    | with_reducible apply run_record
    | with_reducible apply run_Lock
    | with_reducible apply run_Unlock
    | with_reducible apply run_pure
    | (with_reducible apply runFrom_intro; intro _)
    | split
    | (dsimp only; split)
  all_goals simp_all [calls, callsOf, Call.isGetFileContent, Call.isLock, Call.isCredentialCall,
    Call.policyError, policyCheckRequired_iff]

/-- Witness of C5: a regular user on an endpoint where everything is disallowed, with a validator
that rejects the stack file. -/
theorem deployComposeStack_policy_failure_witness :
    ∃ err s1 T, deployComposeStack rejectingHandler (sampleConfig lockedDownEndpoint) freshState =
        some (err, s1) ∧ s1.trace = freshState.trace ++ T ∧
      (∃ r, callsOf Call.isGetFileContent T = [⟨Call.GetFileContent
        (rejectingHandler.pathJoin (sampleConfig lockedDownEndpoint).stack.ProjectPath
          (sampleConfig lockedDownEndpoint).stack.EntryPoint) r, false⟩]) ∧
      (∀ e ∈ T, ∀ content securitySettings r,
        e.call = Call.isValidStackFile content securitySettings r →
          securitySettings = (sampleConfig lockedDownEndpoint).endpoint.SecuritySettings ∧
          ⟨Call.GetFileContent
            (rejectingHandler.pathJoin (sampleConfig lockedDownEndpoint).stack.ProjectPath
              (sampleConfig lockedDownEndpoint).stack.EntryPoint)
            (Except.ok content), false⟩ ∈ T) ∧
      (∀ e ∈ T, ∀ policyErr, e.call.policyError = some policyErr →
        err = some policyErr ∧ calls Call.isLock T = false ∧
          calls Call.isCredentialCall T = false) :=
  deployComposeStack_policy_failure rejectingHandler (sampleConfig lockedDownEndpoint) freshState
    rfl rfl (Or.inl rfl)

/-- The run of the witness of C5, evaluated: the validator receives what was read, its error is
returned, and the mutex is never taken. -/
theorem deployComposeStack_rejected_run :
    (deployComposeStack rejectingHandler (sampleConfig lockedDownEndpoint) freshState).map
        (fun out => (out.1, out.2.trace.map Event.call)) =
      some (some "privileged mode disabled for non administrator users",
        [Call.userIsAdminOrEndpointAdmin ⟨2, "alice"⟩ 5 (Except.ok false),
         Call.GetFileContent "/data/compose/7/docker-compose.yml" (Except.ok []),
         Call.isValidStackFile [] ⟨false, false, false, false, false⟩
           (some "privileged mode disabled for non administrator users"),
         Call.deployComposeStack (sampleConfig lockedDownEndpoint)
           (some "privileged mode disabled for non administrator users")]) := by
  rfl

/-- C6 fails on the code: when `ComposeStackManager.Up` returns an error, `deployComposeStack`
returns it at once.  The run enters the critical section, logs in, and never calls `Logout`. -/
theorem deployComposeStack_no_logout_when_up_fails :
    (deployComposeStack upFailureHandler (sampleConfig permissiveEndpoint) freshState).map
        (fun out => (out.1, out.2.trace.map Event.call)) =
      some (some "compose up failed",
        [Call.userIsAdminOrEndpointAdmin ⟨2, "alice"⟩ 5 (Except.ok false),
         Call.Lock,
         Call.Login ⟨false, ""⟩ [] permissiveEndpoint,
         Call.Up sampleStack permissiveEndpoint (some "compose up failed"),
         Call.Unlock,
         Call.deployComposeStack (sampleConfig permissiveEndpoint) (some "compose up failed")]) := by
  rfl

/-- The general form of the divergence behind C6: in every run of `deployComposeStack` that
enters the critical section, `Logout` is called if and only if `Up` returned nil. -/
theorem deployComposeStack_logout_iff_up_succeeded (h : Handler σ)
    (config : composeStackDeploymentConfig) (s : State σ) (hs : s.stackCreationMutex = false) :
    ∃ err s1 T, deployComposeStack h config s = some (err, s1) ∧ s1.trace = s.trace ++ T ∧
      (calls Call.isLock T = true →
        (calls Call.isLogout T = true ↔
          ⟨Call.Up config.stack config.endpoint none, true⟩ ∈ T)) := by
  obtain ⟨w, m, t⟩ := s
  subst hs
  show Exec.run (deployComposeStack h config) ⟨w, false, t⟩ (fun _ _ _ T =>
      (calls Call.isLock T = true →
        (calls Call.isLogout T = true ↔
          ⟨Call.Up config.stack config.endpoint none, true⟩ ∈ T)))
  unfold deployComposeStack deployComposeStackBody policyCheck credentialSection
  repeat' first
    | with_reducible apply run_bind
    | (with_reducible apply run_call; intro _ _ _)
    | with_reducible apply run_record
    | with_reducible apply run_Lock
    | with_reducible apply run_Unlock
    | with_reducible apply run_pure
    | (with_reducible apply runFrom_intro; intro _)
    | split
    | (dsimp only; split)
  all_goals simp_all [calls, Call.isLock, Call.isLogout]

/-- C7.  In every run of `deployComposeStack` that enters the critical section, `Login` is called
exactly once, with the default registry, the registries and the endpoint of the configuration,
and `Up(stack, endpoint)` is called exactly once, after it, whatever `Login` did; both calls are
made while the mutex is held. -/
theorem deployComposeStack_login_then_up (h : Handler σ)
    (config : composeStackDeploymentConfig) (s : State σ) (hs : s.stackCreationMutex = false) :
    ∃ err s1 T, deployComposeStack h config s = some (err, s1) ∧ s1.trace = s.trace ++ T ∧
      (calls Call.isLock T = true →
        ∃ r, callsOf (fun c => c.isLogin || c.isUp) T =
          [⟨Call.Login config.dockerhub config.registries config.endpoint, true⟩,
           ⟨Call.Up config.stack config.endpoint r, true⟩]) := by
  obtain ⟨w, m, t⟩ := s
  subst hs
  show Exec.run (deployComposeStack h config) ⟨w, false, t⟩ (fun _ _ _ T =>
      (calls Call.isLock T = true →
        ∃ r, callsOf (fun c => c.isLogin || c.isUp) T =
          [⟨Call.Login config.dockerhub config.registries config.endpoint, true⟩,
           ⟨Call.Up config.stack config.endpoint r, true⟩]))
  unfold deployComposeStack deployComposeStackBody policyCheck credentialSection
  repeat' first
    | with_reducible apply run_bind
    | (with_reducible apply run_call; intro _ _ _)
    | with_reducible apply run_record
    | with_reducible apply run_Lock
    | with_reducible apply run_Unlock
    | with_reducible apply run_pure
    | (with_reducible apply runFrom_intro; intro _)
    | split
    | (dsimp only; split)
  all_goals simp_all [calls, callsOf, Call.isLock, Call.isLogin, Call.isUp]

/-- Witness of C7: collaborators that all succeed, on an endpoint without restrictions. -/
theorem deployComposeStack_login_then_up_witness :
    ∃ err s1 T, deployComposeStack quietHandler (sampleConfig permissiveEndpoint) freshState =
        some (err, s1) ∧ s1.trace = freshState.trace ++ T ∧
      (calls Call.isLock T = true →
        ∃ r, callsOf (fun c => c.isLogin || c.isUp) T =
          [⟨Call.Login (sampleConfig permissiveEndpoint).dockerhub
              (sampleConfig permissiveEndpoint).registries
              (sampleConfig permissiveEndpoint).endpoint, true⟩,
           ⟨Call.Up (sampleConfig permissiveEndpoint).stack
              (sampleConfig permissiveEndpoint).endpoint r, true⟩]) :=
  deployComposeStack_login_then_up quietHandler (sampleConfig permissiveEndpoint) freshState rfl

/-- The run of the witness of C7, evaluated: the critical section is entered. -/
theorem deployComposeStack_quiet_run :
    (deployComposeStack quietHandler (sampleConfig permissiveEndpoint) freshState).map
        (fun out => (out.1, out.2.stackCreationMutex, out.2.trace.map Event.call)) =
      some (none, false,
        [Call.userIsAdminOrEndpointAdmin ⟨2, "alice"⟩ 5 (Except.ok false),
         Call.Lock,
         Call.Login ⟨false, ""⟩ [] permissiveEndpoint,
         Call.Up sampleStack permissiveEndpoint none,
         Call.Logout permissiveEndpoint none,
         Call.Unlock,
         Call.deployComposeStack (sampleConfig permissiveEndpoint) none]) := by
  rfl

/-- C9.  Started with the mutex free, `deployComposeStack` returns, on every path, with the mutex
free again; every call to `Login`, `Up` and `Logout` is made while the mutex is held, and the only
other call made while it is held is the deferred `Unlock`. -/
theorem deployComposeStack_lock_discipline (h : Handler σ)
    (config : composeStackDeploymentConfig) (s : State σ) (hs : s.stackCreationMutex = false) :
    ∃ err s1 T, deployComposeStack h config s = some (err, s1) ∧ s1.trace = s.trace ++ T ∧
      s1.stackCreationMutex = false ∧
      (∀ e ∈ T, e.call.isCredentialCall = true → e.locked = true) ∧
      (∀ e ∈ T, e.locked = true → e.call.isCredentialCall = true ∨ e.call = Call.Unlock) := by
  obtain ⟨w, m, t⟩ := s
  subst hs
  show Exec.run (deployComposeStack h config) ⟨w, false, t⟩ (fun _ _ m1 T =>
      m1 = false ∧
      (∀ e ∈ T, e.call.isCredentialCall = true → e.locked = true) ∧
      (∀ e ∈ T, e.locked = true → e.call.isCredentialCall = true ∨ e.call = Call.Unlock))
  unfold deployComposeStack deployComposeStackBody policyCheck credentialSection
  repeat' first
    | with_reducible apply run_bind
    | (with_reducible apply run_call; intro _ _ _)
    | with_reducible apply run_record
    | with_reducible apply run_Lock
    | with_reducible apply run_Unlock
    | with_reducible apply run_pure
    | (with_reducible apply runFrom_intro; intro _)
    | split
    | (dsimp only; split)
  all_goals simp_all [Call.isCredentialCall]

/-- Witness of C9, on the path where `Up` fails inside the critical section. -/
theorem deployComposeStack_lock_discipline_witness :
    ∃ err s1 T, deployComposeStack upFailureHandler (sampleConfig permissiveEndpoint)
        freshState = some (err, s1) ∧ s1.trace = freshState.trace ++ T ∧
      s1.stackCreationMutex = false ∧
      (∀ e ∈ T, e.call.isCredentialCall = true → e.locked = true) ∧
      (∀ e ∈ T, e.locked = true → e.call.isCredentialCall = true ∨ e.call = Call.Unlock) :=
  deployComposeStack_lock_discipline upFailureHandler (sampleConfig permissiveEndpoint)
    freshState rfl

/-- The run of the witness of C9 with the mutex state of every call: held from `Login` to
`Unlock`, free before and after. -/
theorem deployComposeStack_up_failure_locks :
    (deployComposeStack upFailureHandler (sampleConfig permissiveEndpoint) freshState).map
        (fun out => (out.2.stackCreationMutex, out.2.trace.map Event.locked)) =
      some (false, [false, false, true, true, true, false]) := by
  rfl

/-- Called while the mutex is held, `deployComposeStack` does not return: `Lock` blocks. -/
theorem deployComposeStack_blocks_on_held_mutex :
    deployComposeStack quietHandler (sampleConfig permissiveEndpoint) ⟨(), true, []⟩ = none := by
  rfl

end Deploy

/-! ## The create flows -/

section Flows

variable {σ : Type}

theorem run_cleanUp_true (h : Handler σ) (stack : Stack) (w : σ) (m : Bool) (t : List Event)
    (Q : Unit → σ → Bool → List Event → Prop)
    (hq : ∀ a w1, h.RemoveDirectory stack.ProjectPath w = (a, w1) →
      Q () w1 m [⟨Call.RemoveDirectory stack.ProjectPath a, m⟩, ⟨Call.cleanUp stack true, m⟩]) :
    Exec.run (cleanUp h stack true) ⟨w, m, t⟩ Q :=
  ⟨_, _, _, rfl, List.append_assoc t _ _, hq _ _ rfl⟩

theorem run_cleanUp_false (h : Handler σ) (stack : Stack) (w : σ) (m : Bool) (t : List Event)
    (Q : Unit → σ → Bool → List Event → Prop)
    (hq : Q () w m [⟨Call.cleanUp stack false, m⟩]) :
    Exec.run (cleanUp h stack false) ⟨w, m, t⟩ Q :=
  ⟨_, _, _, rfl, rfl, hq⟩

theorem createComposeStackFromFileContent_eq (h : Handler σ) (r : Request) (endpoint : Endpoint)
    (userID : Int) :
    createComposeStackFromFileContent h r endpoint userID =
      createComposeStackFromBytes h r endpoint userID (decodedFileContent r)
        "\x27 is already running" := by
  unfold createComposeStackFromFileContent createComposeStackFromBytes decodedFileContent
  cases DecodeAndValidateJSONPayload r.jsonFileContent
    composeStackFromFileContentPayload.Validate <;> rfl

theorem createComposeStackFromFileUpload_eq (h : Handler σ) (r : Request) (endpoint : Endpoint)
    (userID : Int) :
    createComposeStackFromFileUpload h r endpoint userID =
      createComposeStackFromBytes h r endpoint userID (decodedFileUpload r)
        "\x27 already exists" := by
  unfold createComposeStackFromFileUpload createComposeStackFromBytes decodedFileUpload
  cases decodeRequestForm r <;> rfl

theorem defaultComposeFilePath_path (defaultName : String)
    (payload : composeStackFromGitRepositoryPayload) :
    (defaultComposeFilePath defaultName payload).ComposeFilePathInRepository =
      if payload.ComposeFilePathInRepository = "" then defaultName
      else payload.ComposeFilePathInRepository := by
  unfold defaultComposeFilePath
  split <;> rfl

theorem forall_stack_of_replicate (stackList : List Stack) (stackID : Int)
    (projectPath entryPoint : String)
    (hr : stackList.map (fun stack => (stack.ID, stack.ProjectPath, stack.EntryPoint)) =
      List.replicate stackList.length (stackID, projectPath, entryPoint)) :
    ∀ stack ∈ stackList,
      stack.ID = stackID ∧ stack.ProjectPath = projectPath ∧ stack.EntryPoint = entryPoint := by
  intro stack hmem
  have hin : (stack.ID, stack.ProjectPath, stack.EntryPoint) ∈
      stackList.map (fun stack => (stack.ID, stack.ProjectPath, stack.EntryPoint)) :=
    List.mem_map_of_mem _ hmem
  rw [hr] at hin
  have heq := List.eq_of_mem_replicate hin
  simp only [Prod.mk.injEq] at heq
  exact heq

/-- The properties of every run of the statements shared by the inline-content and the
file-upload flows. -/
theorem createComposeStackFromBytes_properties (h : Handler σ) (r : Request)
    (endpoint : Endpoint) (userID : Int) (decoded : Except Error (String × Bytes × List Pair))
    (conflictEnding : String) (s : State σ) (hs : s.stackCreationMutex = false) :
    ∃ res s1 T,
      createComposeStackFromBytes h r endpoint userID decoded conflictEnding s = some (res, s1) ∧
      s1.trace = s.trace ++ T ∧
      (RollsBack res T ∧ PersistsLast T ∧ FailsFastOnConflict endpoint res T) := by
  obtain ⟨w, m, t⟩ := s
  subst hs
  show Exec.run (createComposeStackFromBytes h r endpoint userID decoded conflictEnding)
    ⟨w, false, t⟩
    (fun res _ _ T => RollsBack res T ∧ PersistsLast T ∧ FailsFastOnConflict endpoint res T)
  unfold createComposeStackFromBytes deployAndPersist createComposeDeployConfig
    createComposeDeployConfigBody
    deployComposeStack deployComposeStackBody policyCheck credentialSection
  repeat' first
    | with_reducible apply run_bind
    | (with_reducible apply run_call; intro _ _ _)
    | with_reducible apply run_record
    | with_reducible apply run_Lock
    | with_reducible apply run_Unlock
    | with_reducible apply run_pure
    | (with_reducible apply runFrom_intro; intro _)
    | (with_reducible apply run_unless <;> intro hb <;> subst hb)
    | (with_reducible apply run_cleanUp_true; intro _ _ _)
    | with_reducible apply run_cleanUp_false
    | split
    | (dsimp only; split)
    | dsimp only
  all_goals try simp only [List.cons_append, List.nil_append, List.append_nil]
  all_goals refine ⟨?_, ?_, ?_⟩
  all_goals first
    | ((guard_target = RollsBack _ _) <;> first
        | exact fun hc => (Bool.false_ne_true hc).elim
        | exact fun _ => ⟨rfl, _, rfl, rfl, rfl⟩)
    | ((guard_target = PersistsLast _) <;> first
        | exact Or.inl rfl
        | exact Or.inr ⟨_, rfl, rfl, rfl, rfl, rfl⟩)
    | ((guard_target = FailsFastOnConflict _ _ _) <;> first
        | exact ⟨Or.inl rfl, rfl, fun hc => (Bool.false_ne_true hc).elim⟩
        | exact ⟨Or.inr ⟨_, _, rfl⟩, rfl, fun hc => (Bool.false_ne_true hc).elim⟩
        | exact ⟨Or.inr ⟨_, _, rfl⟩, rfl, fun _ => ⟨rfl, rfl⟩⟩)

/-- The properties of every run of the git-repository flow. -/
theorem createComposeStackFromGitRepository_properties (h : Handler σ) (r : Request)
    (endpoint : Endpoint) (userID : Int) (s : State σ) (hs : s.stackCreationMutex = false) :
    ∃ res s1 T,
      createComposeStackFromGitRepository h r endpoint userID s = some (res, s1) ∧
      s1.trace = s.trace ++ T ∧
      (RollsBack res T ∧ PersistsLast T ∧ FailsFastOnConflict endpoint res T ∧
        ∀ payload, DecodeAndValidateJSONPayload r.jsonGitRepository
          (composeStackFromGitRepositoryPayload.Validate h.IsURL) = Except.ok payload →
          ResolvesGitSource h.ComposeFileDefaultName payload T) := by
  obtain ⟨w, m, t⟩ := s
  subst hs
  show Exec.run (createComposeStackFromGitRepository h r endpoint userID) ⟨w, false, t⟩
    (fun res _ _ T => RollsBack res T ∧ PersistsLast T ∧ FailsFastOnConflict endpoint res T ∧
        ∀ payload, DecodeAndValidateJSONPayload r.jsonGitRepository
          (composeStackFromGitRepositoryPayload.Validate h.IsURL) = Except.ok payload →
          ResolvesGitSource h.ComposeFileDefaultName payload T)
  unfold createComposeStackFromGitRepository deployAndPersist createComposeDeployConfig
    createComposeDeployConfigBody
    deployComposeStack deployComposeStackBody policyCheck credentialSection
  cases DecodeAndValidateJSONPayload r.jsonGitRepository
    (composeStackFromGitRepositoryPayload.Validate h.IsURL)
  repeat' first
    | with_reducible apply run_bind
    | (with_reducible apply run_call; intro _ _ _)
    | with_reducible apply run_record
    | with_reducible apply run_Lock
    | with_reducible apply run_Unlock
    | with_reducible apply run_pure
    | (with_reducible apply runFrom_intro; intro _)
    | (with_reducible apply run_unless <;> intro hb <;> subst hb)
    | (with_reducible apply run_cleanUp_true; intro _ _ _)
    | with_reducible apply run_cleanUp_false
    | split
    | (dsimp only; split)
    | dsimp only
  all_goals try simp only [List.cons_append, List.nil_append, List.append_nil,
    defaultComposeFilePath_path]
  all_goals refine ⟨?_, ?_, ?_, ?_⟩
  all_goals first
    | ((guard_target = RollsBack _ _) <;> first
        | exact fun hc => (Bool.false_ne_true hc).elim
        | exact fun _ => ⟨rfl, _, rfl, rfl, rfl⟩)
    | ((guard_target = PersistsLast _) <;> first
        | exact Or.inl rfl
        | exact Or.inr ⟨_, rfl, rfl, rfl, rfl, rfl⟩)
    | ((guard_target = FailsFastOnConflict _ _ _) <;> first
        | exact ⟨Or.inl rfl, rfl, fun hc => (Bool.false_ne_true hc).elim⟩
        | exact ⟨Or.inr ⟨_, _, rfl⟩, rfl, fun hc => (Bool.false_ne_true hc).elim⟩
        | exact ⟨Or.inr ⟨_, _, rfl⟩, rfl, fun _ => ⟨rfl, rfl⟩⟩)
    | (intro payload hp; cases hp; done)
    | (intro payload hp; cases hp;
       exact ⟨fun hc => (Bool.false_ne_true hc).elim, Or.inl rfl⟩)
    | (intro payload hp; cases hp;
       exact ⟨fun _ => rfl, Or.inr ⟨_, _, rfl, rfl, forall_stack_of_replicate _ _ _ _ rfl⟩⟩)

/-- C1.  In each of the three create flows, whatever the collaborators do: if
`createComposeDeployConfig` fails, `deployComposeStack` fails or `CreateStack` fails, the flow
returns an error and the deferred `cleanUp` runs last, with `doCleanUp` still true, on a stack
whose `ProjectPath` is the directory the source was materialized under; that directory is
removed before the call returns. -/
theorem create_flows_roll_back (h : Handler σ) (r : Request) (endpoint : Endpoint) (userID : Int)
    (s : State σ) (hs : s.stackCreationMutex = false) :
    (∃ res s1 T, createComposeStackFromFileContent h r endpoint userID s = some (res, s1) ∧
      s1.trace = s.trace ++ T ∧ RollsBack res T) ∧
    (∃ res s1 T, createComposeStackFromFileUpload h r endpoint userID s = some (res, s1) ∧
      s1.trace = s.trace ++ T ∧ RollsBack res T) ∧
    (∃ res s1 T, createComposeStackFromGitRepository h r endpoint userID s = some (res, s1) ∧
      s1.trace = s.trace ++ T ∧ RollsBack res T) := by
  refine ⟨?_, ?_, ?_⟩
  · rw [createComposeStackFromFileContent_eq]
    obtain ⟨res, s1, T, hrun, htrace, hp⟩ :=
      createComposeStackFromBytes_properties h r endpoint userID (decodedFileContent r) _ s hs
    exact ⟨res, s1, T, hrun, htrace, hp.1⟩
  · rw [createComposeStackFromFileUpload_eq]
    obtain ⟨res, s1, T, hrun, htrace, hp⟩ :=
      createComposeStackFromBytes_properties h r endpoint userID (decodedFileUpload r) _ s hs
    exact ⟨res, s1, T, hrun, htrace, hp.1⟩
  · obtain ⟨res, s1, T, hrun, htrace, hp⟩ :=
      createComposeStackFromGitRepository_properties h r endpoint userID s hs
    exact ⟨res, s1, T, hrun, htrace, hp.1⟩

/-- Witness of C1: the three flows with collaborators that succeed until `CreateStack` fails. -/
theorem create_flows_roll_back_witness :
    (∃ res s1 T, createComposeStackFromFileContent createFailureHandler sampleRequest
        permissiveEndpoint 2 freshState = some (res, s1) ∧
      s1.trace = freshState.trace ++ T ∧ RollsBack res T) ∧
    (∃ res s1 T, createComposeStackFromFileUpload createFailureHandler sampleRequest
        permissiveEndpoint 2 freshState = some (res, s1) ∧
      s1.trace = freshState.trace ++ T ∧ RollsBack res T) ∧
    (∃ res s1 T, createComposeStackFromGitRepository createFailureHandler sampleRequest
        permissiveEndpoint 2 freshState = some (res, s1) ∧
      s1.trace = freshState.trace ++ T ∧ RollsBack res T) :=
  create_flows_roll_back createFailureHandler sampleRequest permissiveEndpoint 2 freshState rfl

/-- The run of the witness of C1 for the inline-content flow, evaluated: the flow answers 500, and
after the failed `CreateStack` it removes `/data/compose/7` and ends with `cleanUp`. -/
theorem file_content_create_failure_run :
    (createComposeStackFromFileContent createFailureHandler sampleRequest permissiveEndpoint 2
        freshState).map (fun out => (out.1, (out.2.trace.map Event.call).drop 16)) =
      some (some ⟨500, "Unable to persist the stack inside the database", "database is closed"⟩,
        [Call.CreateStack { sampleStack with CreatedBy := "alice" } (some "database is closed"),
         Call.RemoveDirectory "/data/compose/7" none,
         Call.cleanUp { sampleStack with CreatedBy := "alice" } true]) := by
  decide

/-- C2.  In every run of each of the three create flows, `CreateStack` is called at most once;
when it is called, `deployComposeStack` has returned nil and `Up` has succeeded before it, the
stack it receives carries the `ProjectPath` under which the source was materialized before it,
and no call that deploys or materializes source is made after it. -/
theorem create_flows_persist_last (h : Handler σ) (r : Request) (endpoint : Endpoint)
    (userID : Int) (s : State σ) (hs : s.stackCreationMutex = false) :
    (∃ res s1 T, createComposeStackFromFileContent h r endpoint userID s = some (res, s1) ∧
      s1.trace = s.trace ++ T ∧ PersistsLast T) ∧
    (∃ res s1 T, createComposeStackFromFileUpload h r endpoint userID s = some (res, s1) ∧
      s1.trace = s.trace ++ T ∧ PersistsLast T) ∧
    (∃ res s1 T, createComposeStackFromGitRepository h r endpoint userID s = some (res, s1) ∧
      s1.trace = s.trace ++ T ∧ PersistsLast T) := by
  refine ⟨?_, ?_, ?_⟩
  · rw [createComposeStackFromFileContent_eq]
    obtain ⟨res, s1, T, hrun, htrace, hp⟩ :=
      createComposeStackFromBytes_properties h r endpoint userID (decodedFileContent r) _ s hs
    exact ⟨res, s1, T, hrun, htrace, hp.2.1⟩
  · rw [createComposeStackFromFileUpload_eq]
    obtain ⟨res, s1, T, hrun, htrace, hp⟩ :=
      createComposeStackFromBytes_properties h r endpoint userID (decodedFileUpload r) _ s hs
    exact ⟨res, s1, T, hrun, htrace, hp.2.1⟩
  · obtain ⟨res, s1, T, hrun, htrace, hp⟩ :=
      createComposeStackFromGitRepository_properties h r endpoint userID s hs
    exact ⟨res, s1, T, hrun, htrace, hp.2.1⟩

/-- Witness of C2: the three flows with collaborators that all succeed, so that `CreateStack` is
reached. -/
theorem create_flows_persist_last_witness :
    (∃ res s1 T, createComposeStackFromFileContent quietHandler sampleRequest
        lockedDownEndpoint 2 freshState = some (res, s1) ∧
      s1.trace = freshState.trace ++ T ∧ PersistsLast T) ∧
    (∃ res s1 T, createComposeStackFromFileUpload quietHandler sampleRequest
        lockedDownEndpoint 2 freshState = some (res, s1) ∧
      s1.trace = freshState.trace ++ T ∧ PersistsLast T) ∧
    (∃ res s1 T, createComposeStackFromGitRepository quietHandler sampleRequest
        lockedDownEndpoint 2 freshState = some (res, s1) ∧
      s1.trace = freshState.trace ++ T ∧ PersistsLast T) :=
  create_flows_persist_last quietHandler sampleRequest lockedDownEndpoint 2 freshState rfl

/-- The run of the witness of C2 for the git flow, evaluated: one `CreateStack`, of a stack whose
`ProjectPath` is the clone destination, followed only by `decorateStackResponse` and the disarmed
`cleanUp`. -/
theorem git_repository_quiet_run :
    (createComposeStackFromGitRepository quietHandler sampleRequest lockedDownEndpoint 2
        freshState).map
      (fun out => (out.1, createdStacks out.2.trace, cloneDestinations out.2.trace,
        (afterCreateStack out.2.trace).map Event.call)) =
      some (none,
        [{ sampleStack with Name := "app", CreatedBy := "alice" }],
        ["/data/compose/7"],
        [Call.decorateStackResponse { sampleStack with Name := "app", CreatedBy := "alice" } 2 none,
         Call.cleanUp { sampleStack with Name := "app", CreatedBy := "alice" } false]) := by
  decide

/-- C3.  In every run of each of the three create flows on `endpoint`: the uniqueness check is
made with exclude stack ID 0 and before any of `GetNextIdentifier`, `StoreStackFileFromBytes`,
`GetStackProjectPath`, `cloneGitRepository`, `deployComposeStack`, `CreateStack` and `cleanUp`;
and if it reports that the name is not unique, the flow returns status 409 and has made none of
those calls. -/
theorem create_flows_fail_fast_on_conflict (h : Handler σ) (r : Request) (endpoint : Endpoint)
    (userID : Int) (s : State σ) (hs : s.stackCreationMutex = false) :
    (∃ res s1 T, createComposeStackFromFileContent h r endpoint userID s = some (res, s1) ∧
      s1.trace = s.trace ++ T ∧ FailsFastOnConflict endpoint res T) ∧
    (∃ res s1 T, createComposeStackFromFileUpload h r endpoint userID s = some (res, s1) ∧
      s1.trace = s.trace ++ T ∧ FailsFastOnConflict endpoint res T) ∧
    (∃ res s1 T, createComposeStackFromGitRepository h r endpoint userID s = some (res, s1) ∧
      s1.trace = s.trace ++ T ∧ FailsFastOnConflict endpoint res T) := by
  refine ⟨?_, ?_, ?_⟩
  · rw [createComposeStackFromFileContent_eq]
    obtain ⟨res, s1, T, hrun, htrace, hp⟩ :=
      createComposeStackFromBytes_properties h r endpoint userID (decodedFileContent r) _ s hs
    exact ⟨res, s1, T, hrun, htrace, hp.2.2⟩
  · rw [createComposeStackFromFileUpload_eq]
    obtain ⟨res, s1, T, hrun, htrace, hp⟩ :=
      createComposeStackFromBytes_properties h r endpoint userID (decodedFileUpload r) _ s hs
    exact ⟨res, s1, T, hrun, htrace, hp.2.2⟩
  · obtain ⟨res, s1, T, hrun, htrace, hp⟩ :=
      createComposeStackFromGitRepository_properties h r endpoint userID s hs
    exact ⟨res, s1, T, hrun, htrace, hp.2.2.1⟩

/-- Witness of C3: the three flows when `checkUniqueName` reports that the name is taken. -/
theorem create_flows_fail_fast_on_conflict_witness :
    (∃ res s1 T, createComposeStackFromFileContent conflictHandler sampleRequest
        permissiveEndpoint 2 freshState = some (res, s1) ∧
      s1.trace = freshState.trace ++ T ∧ FailsFastOnConflict permissiveEndpoint res T) ∧
    (∃ res s1 T, createComposeStackFromFileUpload conflictHandler sampleRequest
        permissiveEndpoint 2 freshState = some (res, s1) ∧
      s1.trace = freshState.trace ++ T ∧ FailsFastOnConflict permissiveEndpoint res T) ∧
    (∃ res s1 T, createComposeStackFromGitRepository conflictHandler sampleRequest
        permissiveEndpoint 2 freshState = some (res, s1) ∧
      s1.trace = freshState.trace ++ T ∧ FailsFastOnConflict permissiveEndpoint res T) :=
  create_flows_fail_fast_on_conflict conflictHandler sampleRequest permissiveEndpoint 2
    freshState rfl

/-- The runs of the witness of C3, evaluated: each flow answers 409 after exactly two calls, the
normalization of the name and the uniqueness check, and this also with the mutex held. -/
theorem create_flows_conflict_runs :
    (createComposeStackFromFileContent conflictHandler sampleRequest permissiveEndpoint 2
        ⟨(), true, []⟩).map (fun out => (out.1, out.2.trace.map Event.call)) =
      some (some ⟨409, "A stack with the name \x27web\x27 is already running",
          "A stack with the name \x27web\x27 is already running"⟩,
        [Call.NormalizeStackName "web" "web",
         Call.checkUniqueName permissiveEndpoint "web" 0 false (Except.ok false)]) ∧
    (createComposeStackFromFileUpload conflictHandler sampleRequest permissiveEndpoint 2
        ⟨(), true, []⟩).map (fun out => (out.1, out.2.trace.map Event.call)) =
      some (some ⟨409, "A stack with the name \x27web\x27 already exists",
          "A stack with the name \x27web\x27 already exists"⟩,
        [Call.NormalizeStackName "web" "web",
         Call.checkUniqueName permissiveEndpoint "web" 0 false (Except.ok false)]) ∧
    (createComposeStackFromGitRepository conflictHandler sampleRequest permissiveEndpoint 2
        ⟨(), true, []⟩).map (fun out => (out.1, out.2.trace.map Event.call)) =
      some (some ⟨409, "A stack with the name \x27app\x27 already exists",
          "A stack with the name \x27app\x27 already exists"⟩,
        [Call.NormalizeStackName "app" "app",
         Call.checkUniqueName permissiveEndpoint "app" 0 false (Except.ok false)]) := by
  decide

/-- C10.  In `createComposeStackFromGitRepository`, for every valid payload: the stack has the
entry point `payload.ComposeFilePathInRepository` when that is not empty and
`filesystem.ComposeFileDefaultName` when it is; its `ProjectPath` is what
`GetStackProjectPath` returned for the decimal string of its ID, computed before the clone is
invoked, and it is the path handed to the clone. -/
theorem git_repository_resolves_source (h : Handler σ) (r : Request) (endpoint : Endpoint)
    (userID : Int) (s : State σ) (payload : composeStackFromGitRepositoryPayload)
    (hvalid : DecodeAndValidateJSONPayload r.jsonGitRepository
      (composeStackFromGitRepositoryPayload.Validate h.IsURL) = Except.ok payload)
    (hs : s.stackCreationMutex = false) :
    ∃ res s1 T, createComposeStackFromGitRepository h r endpoint userID s = some (res, s1) ∧
      s1.trace = s.trace ++ T ∧ ResolvesGitSource h.ComposeFileDefaultName payload T := by
  obtain ⟨res, s1, T, hrun, htrace, hp⟩ :=
    createComposeStackFromGitRepository_properties h r endpoint userID s hs
  exact ⟨res, s1, T, hrun, htrace, hp.2.2.2 payload hvalid⟩

/-- Witness of C10: a valid payload with an empty `ComposeFilePathInRepository`. -/
theorem git_repository_resolves_source_witness :
    ∃ res s1 T, createComposeStackFromGitRepository quietHandler sampleRequest
        lockedDownEndpoint 2 freshState = some (res, s1) ∧
      s1.trace = freshState.trace ++ T ∧
      ResolvesGitSource quietHandler.ComposeFileDefaultName sampleGitPayload T :=
  git_repository_resolves_source quietHandler sampleRequest lockedDownEndpoint 2 freshState
    sampleGitPayload (by decide) rfl

/-- The runs of the git flow on the payload of the witness of C10 and on the same payload with
`ComposeFilePathInRepository` set, evaluated at the clone and at the deferred `cleanUp`. -/
theorem git_repository_entry_point_runs :
    (createComposeStackFromGitRepository quietHandler sampleRequest lockedDownEndpoint 2
        freshState).map
      (fun out => (projectPathsBeforeClone out.2.trace, cloneDestinations out.2.trace,
        (stacksOf out.2.trace).map (fun stack => (stack.ID, stack.ProjectPath, stack.EntryPoint)))) =
      some ([("7", "/data/compose/7")], ["/data/compose/7"],
        List.replicate 6 ((7 : Int), "/data/compose/7", "docker-compose.yml")) ∧
    (createComposeStackFromGitRepository quietHandler
        { sampleRequest with
          jsonGitRepository := Except.ok
            { sampleGitPayload with ComposeFilePathInRepository := "deploy/stack.yml" } }
        lockedDownEndpoint 2 freshState).map
      (fun out => (projectPathsBeforeClone out.2.trace, cloneDestinations out.2.trace,
        (stacksOf out.2.trace).map (fun stack => (stack.ID, stack.ProjectPath, stack.EntryPoint)))) =
      some ([("7", "/data/compose/7")], ["/data/compose/7"],
        List.replicate 6 ((7 : Int), "/data/compose/7", "deploy/stack.yml")) :=
  ⟨rfl, rfl⟩

/-- Further properties of every run of the statements shared by the inline-content and the
file-upload flows. -/
theorem createComposeStackFromBytes_outcomes (h : Handler σ) (r : Request)
    (endpoint : Endpoint) (userID : Int) (payloadName : String) (stackFileContent : Bytes)
    (env : List Pair) (decoded : Except Error (String × Bytes × List Pair))
    (conflictEnding : String) (s : State σ) (hs : s.stackCreationMutex = false) :
    ∃ res s1 T,
      createComposeStackFromBytes h r endpoint userID decoded conflictEnding s = some (res, s1) ∧
      s1.trace = s.trace ++ T ∧
      (AbortsOnStoreFailure res T ∧ DisarmsCleanUp userID res T ∧ FailsOnLogoutError res T ∧
        (decoded = Except.ok (payloadName, stackFileContent, env) →
          PersistsRecord h.ComposeFileDefaultName endpoint r.securityContext payloadName
            stackFileContent env T)) := by
  obtain ⟨w, m, t⟩ := s
  subst hs
  show Exec.run (createComposeStackFromBytes h r endpoint userID decoded conflictEnding)
    ⟨w, false, t⟩
    (fun res _ _ T => AbortsOnStoreFailure res T ∧ DisarmsCleanUp userID res T ∧
      FailsOnLogoutError res T ∧
        (decoded = Except.ok (payloadName, stackFileContent, env) →
          PersistsRecord h.ComposeFileDefaultName endpoint r.securityContext payloadName
            stackFileContent env T))
  unfold createComposeStackFromBytes deployAndPersist createComposeDeployConfig
    createComposeDeployConfigBody
    deployComposeStack deployComposeStackBody policyCheck credentialSection
  cases r.securityContext
  repeat' first
    | with_reducible apply run_bind
    | (with_reducible apply run_call; intro _ _ _)
    | with_reducible apply run_record
    | with_reducible apply run_Lock
    | with_reducible apply run_Unlock
    | with_reducible apply run_pure
    | (with_reducible apply runFrom_intro; intro _)
    | (with_reducible apply run_unless <;> intro hb <;> subst hb)
    | (with_reducible apply run_cleanUp_true; intro _ _ _)
    | with_reducible apply run_cleanUp_false
    | split
    | (dsimp only; split)
    | dsimp only
  all_goals try simp only [List.cons_append, List.nil_append, List.append_nil]
  all_goals refine ⟨?_, ?_, ?_, ?_⟩
  all_goals first
    | ((guard_target = AbortsOnStoreFailure _ _) <;> first
        | exact fun hc => (Bool.false_ne_true hc).elim
        | exact fun _ => ⟨rfl, rfl, rfl⟩)
    | ((guard_target = DisarmsCleanUp _ _ _) <;> first
        | exact fun hc => (Bool.false_ne_true hc).elim
        | exact fun _ => ⟨_, rfl, rfl, rfl, rfl⟩)
    | ((guard_target = FailsOnLogoutError _ _) <;> first
        | exact fun hc => (Bool.false_ne_true hc).elim
        | exact fun _ => ⟨rfl, rfl, _, _, rfl, rfl, rfl, rfl, rfl, rfl⟩)
    | (intro hd; cases hd; done)
    | (intro hd; cases hd; exact Or.inl rfl)
    | (intro hd; cases hd; exact Or.inr ⟨_, _, _, _, _, _, rfl, rfl, rfl, rfl, rfl, rfl, rfl⟩)

/-- Further properties of every run of the git-repository flow. -/
theorem createComposeStackFromGitRepository_outcomes (h : Handler σ) (r : Request)
    (endpoint : Endpoint) (userID : Int) (s : State σ) (hs : s.stackCreationMutex = false) :
    ∃ res s1 T,
      createComposeStackFromGitRepository h r endpoint userID s = some (res, s1) ∧
      s1.trace = s.trace ++ T ∧
      (AbortsOnCloneFailure res T ∧ DisarmsCleanUp userID res T ∧ FailsOnLogoutError res T) := by
  obtain ⟨w, m, t⟩ := s
  subst hs
  show Exec.run (createComposeStackFromGitRepository h r endpoint userID) ⟨w, false, t⟩
    (fun res _ _ T =>
      AbortsOnCloneFailure res T ∧ DisarmsCleanUp userID res T ∧ FailsOnLogoutError res T)
  unfold createComposeStackFromGitRepository deployAndPersist createComposeDeployConfig
    createComposeDeployConfigBody
    deployComposeStack deployComposeStackBody policyCheck credentialSection
  repeat' first
    | with_reducible apply run_bind
    | (with_reducible apply run_call; intro _ _ _)
    | with_reducible apply run_record
    | with_reducible apply run_Lock
    | with_reducible apply run_Unlock
    | with_reducible apply run_pure
    | (with_reducible apply runFrom_intro; intro _)
    | (with_reducible apply run_unless <;> intro hb <;> subst hb)
    | (with_reducible apply run_cleanUp_true; intro _ _ _)
    | with_reducible apply run_cleanUp_false
    | split
    | (dsimp only; split)
    | dsimp only
  all_goals try simp only [List.cons_append, List.nil_append, List.append_nil]
  all_goals refine ⟨?_, ?_, ?_⟩
  all_goals first
    | ((guard_target = AbortsOnCloneFailure _ _) <;> first
        | exact fun hc => (Bool.false_ne_true hc).elim
        | exact fun _ => ⟨rfl, rfl, _, rfl, rfl, rfl, rfl⟩)
    | ((guard_target = DisarmsCleanUp _ _ _) <;> first
        | exact fun hc => (Bool.false_ne_true hc).elim
        | exact fun _ => ⟨_, rfl, rfl, rfl, rfl⟩)
    | ((guard_target = FailsOnLogoutError _ _) <;> first
        | exact fun hc => (Bool.false_ne_true hc).elim
        | exact fun _ => ⟨rfl, rfl, _, _, rfl, rfl, rfl, rfl, rfl, rfl⟩)

/-- C11.  In `createComposeStackFromGitRepository`, whatever the collaborators do: if
`cloneGitRepository` returns an error, the flow returns a `HandlerError` with status 500, neither
`deployComposeStack` nor `CreateStack` is called, and the deferred `cleanUp` runs last, with
`doCleanUp` true, on the stack whose `ProjectPath` is the destination of the clone; that
directory is removed. -/
theorem git_repository_aborts_on_clone_failure (h : Handler σ) (r : Request)
    (endpoint : Endpoint) (userID : Int) (s : State σ) (hs : s.stackCreationMutex = false) :
    ∃ res s1 T, createComposeStackFromGitRepository h r endpoint userID s = some (res, s1) ∧
      s1.trace = s.trace ++ T ∧ AbortsOnCloneFailure res T := by
  obtain ⟨res, s1, T, hrun, htrace, hp⟩ :=
    createComposeStackFromGitRepository_outcomes h r endpoint userID s hs
  exact ⟨res, s1, T, hrun, htrace, hp.1⟩

/-- Witness of C11: the git flow with a clone that fails. -/
theorem git_repository_aborts_on_clone_failure_witness :
    ∃ res s1 T, createComposeStackFromGitRepository cloneFailureHandler sampleRequest
        permissiveEndpoint 2 freshState = some (res, s1) ∧
      s1.trace = freshState.trace ++ T ∧ AbortsOnCloneFailure res T :=
  git_repository_aborts_on_clone_failure cloneFailureHandler sampleRequest permissiveEndpoint 2
    freshState rfl

/-- The run of the witness of C11, evaluated from the clone on: the flow answers 500, and after
the failed clone into `/data/compose/7` it removes that directory and ends with `cleanUp`. -/
theorem git_repository_clone_failure_run :
    (createComposeStackFromGitRepository cloneFailureHandler sampleRequest permissiveEndpoint 2
        freshState).map (fun out => (out.1, (out.2.trace.map Event.call).drop 5)) =
      some (some ⟨500, "Unable to clone git repository", "repository not found"⟩,
        [Call.cloneGitRepository
           ⟨"https://github.com/openfaas/faas", "refs/heads/master", "/data/compose/7", false,
             "", ""⟩ (some "repository not found"),
         Call.RemoveDirectory "/data/compose/7" none,
         Call.cleanUp { sampleStack with Name := "app" } true]) := by
  decide

/-- C12.  In `createComposeStackFromFileContent`, for every valid payload, whenever `CreateStack`
is reached: the record it receives has the identifier `GetNextIdentifier` returned, the
normalized payload name, the type `DockerComposeStack`, the ID of the endpoint, the entry point
`filesystem.ComposeFileDefaultName`, the `Env` of the payload, the status `StackStatusActive`,
the `Username` of the user loaded for the security context of the request, and as `ProjectPath`
the path `StoreStackFileFromBytes` returned when called with the decimal string of the
identifier, the default entry-point name and the bytes of `payload.StackFileContent`. -/
theorem file_content_persists_record (h : Handler σ) (r : Request) (endpoint : Endpoint)
    (userID : Int) (s : State σ) (payload : composeStackFromFileContentPayload)
    (hvalid : DecodeAndValidateJSONPayload r.jsonFileContent
      composeStackFromFileContentPayload.Validate = Except.ok payload)
    (hs : s.stackCreationMutex = false) :
    ∃ res s1 T, createComposeStackFromFileContent h r endpoint userID s = some (res, s1) ∧
      s1.trace = s.trace ++ T ∧
      PersistsRecord h.ComposeFileDefaultName endpoint r.securityContext payload.Name
        (bytesOfString payload.StackFileContent) payload.Env T := by
  rw [createComposeStackFromFileContent_eq]
  obtain ⟨res, s1, T, hrun, htrace, hp⟩ :=
    createComposeStackFromBytes_outcomes h r endpoint userID payload.Name
      (bytesOfString payload.StackFileContent) payload.Env (decodedFileContent r)
      "\x27 is already running" s hs
  refine ⟨res, s1, T, hrun, htrace, hp.2.2.2 ?_⟩
  unfold decodedFileContent
  rw [hvalid]

/-- Witness of C12: the inline-content flow with collaborators that all succeed. -/
theorem file_content_persists_record_witness :
    ∃ res s1 T, createComposeStackFromFileContent quietHandler sampleRequest lockedDownEndpoint 2
        freshState = some (res, s1) ∧
      s1.trace = freshState.trace ++ T ∧
      PersistsRecord quietHandler.ComposeFileDefaultName lockedDownEndpoint
        sampleRequest.securityContext "web" (bytesOfString "v1") [] T :=
  file_content_persists_record quietHandler sampleRequest lockedDownEndpoint 2 freshState
    { Name := "web", StackFileContent := "v1", Env := [] } (by decide) rfl

/-- The run of the witness of C12, evaluated: what was stored, and the record persisted. -/
theorem file_content_quiet_run :
    (createComposeStackFromFileContent quietHandler sampleRequest lockedDownEndpoint 2
        freshState).map
      (fun out => (out.1, storedFiles out.2.trace, loadedUsers out.2.trace,
        createdStacks out.2.trace)) =
      some (none,
        [("7", "docker-compose.yml", [118, 49], Except.ok "/data/compose/7")],
        [(2, ⟨2, "alice"⟩)],
        [{ sampleStack with CreatedBy := "alice" }]) := by
  rfl

/-- C13.  In `createComposeStackFromFileContent` and `createComposeStackFromFileUpload`, whatever
the collaborators do: if `StoreStackFileFromBytes` returns an error, the flow returns a
`HandlerError` with status 500 and calls neither `cleanUp`, nor `deployComposeStack`, nor
`CreateStack`: the failed store is its last call. -/
theorem file_flows_abort_on_store_failure (h : Handler σ) (r : Request) (endpoint : Endpoint)
    (userID : Int) (s : State σ) (hs : s.stackCreationMutex = false) :
    (∃ res s1 T, createComposeStackFromFileContent h r endpoint userID s = some (res, s1) ∧
      s1.trace = s.trace ++ T ∧ AbortsOnStoreFailure res T) ∧
    (∃ res s1 T, createComposeStackFromFileUpload h r endpoint userID s = some (res, s1) ∧
      s1.trace = s.trace ++ T ∧ AbortsOnStoreFailure res T) := by
  refine ⟨?_, ?_⟩
  · rw [createComposeStackFromFileContent_eq]
    obtain ⟨res, s1, T, hrun, htrace, hp⟩ :=
      createComposeStackFromBytes_outcomes h r endpoint userID "" [] [] (decodedFileContent r)
        _ s hs
    exact ⟨res, s1, T, hrun, htrace, hp.1⟩
  · rw [createComposeStackFromFileUpload_eq]
    obtain ⟨res, s1, T, hrun, htrace, hp⟩ :=
      createComposeStackFromBytes_outcomes h r endpoint userID "" [] [] (decodedFileUpload r)
        _ s hs
    exact ⟨res, s1, T, hrun, htrace, hp.1⟩

/-- Witness of C13: the two flows when storing the stack file fails. -/
theorem file_flows_abort_on_store_failure_witness :
    (∃ res s1 T, createComposeStackFromFileContent storeFailureHandler sampleRequest
        permissiveEndpoint 2 freshState = some (res, s1) ∧
      s1.trace = freshState.trace ++ T ∧ AbortsOnStoreFailure res T) ∧
    (∃ res s1 T, createComposeStackFromFileUpload storeFailureHandler sampleRequest
        permissiveEndpoint 2 freshState = some (res, s1) ∧
      s1.trace = freshState.trace ++ T ∧ AbortsOnStoreFailure res T) :=
  file_flows_abort_on_store_failure storeFailureHandler sampleRequest permissiveEndpoint 2
    freshState rfl

/-- The runs of the witness of C13, evaluated from the store on: each flow answers 500 and the
failed store is the last call. -/
theorem file_flows_store_failure_runs :
    (createComposeStackFromFileContent storeFailureHandler sampleRequest permissiveEndpoint 2
        freshState).map (fun out => (out.1, (out.2.trace.map Event.call).drop 4)) =
      some (some ⟨500, "Unable to persist Compose file on disk", "no space left on device"⟩,
        [Call.StoreStackFileFromBytes "7" "docker-compose.yml" [118, 49]
          (Except.error "no space left on device")]) ∧
    (createComposeStackFromFileUpload storeFailureHandler sampleRequest permissiveEndpoint 2
        freshState).map (fun out => (out.1, (out.2.trace.map Event.call).drop 4)) =
      some (some ⟨500, "Unable to persist Compose file on disk", "no space left on device"⟩,
        [Call.StoreStackFileFromBytes "7" "docker-compose.yml" [118, 49]
          (Except.error "no space left on device")]) := by
  decide

/-- C14.  In each of the three create flows, whatever the collaborators do: once `CreateStack`
has returned nil, `doCleanUp` is false when the deferred `cleanUp` runs.  The persisted record is
followed by `decorateStackResponse`, whose result is the result of the flow whatever it is, and
by `cleanUp` with `doCleanUp` false; no directory is removed. -/
theorem create_flows_disarm_clean_up (h : Handler σ) (r : Request) (endpoint : Endpoint)
    (userID : Int) (s : State σ) (hs : s.stackCreationMutex = false) :
    (∃ res s1 T, createComposeStackFromFileContent h r endpoint userID s = some (res, s1) ∧
      s1.trace = s.trace ++ T ∧ DisarmsCleanUp userID res T) ∧
    (∃ res s1 T, createComposeStackFromFileUpload h r endpoint userID s = some (res, s1) ∧
      s1.trace = s.trace ++ T ∧ DisarmsCleanUp userID res T) ∧
    (∃ res s1 T, createComposeStackFromGitRepository h r endpoint userID s = some (res, s1) ∧
      s1.trace = s.trace ++ T ∧ DisarmsCleanUp userID res T) := by
  refine ⟨?_, ?_, ?_⟩
  · rw [createComposeStackFromFileContent_eq]
    obtain ⟨res, s1, T, hrun, htrace, hp⟩ :=
      createComposeStackFromBytes_outcomes h r endpoint userID "" [] [] (decodedFileContent r)
        _ s hs
    exact ⟨res, s1, T, hrun, htrace, hp.2.1⟩
  · rw [createComposeStackFromFileUpload_eq]
    obtain ⟨res, s1, T, hrun, htrace, hp⟩ :=
      createComposeStackFromBytes_outcomes h r endpoint userID "" [] [] (decodedFileUpload r)
        _ s hs
    exact ⟨res, s1, T, hrun, htrace, hp.2.1⟩
  · obtain ⟨res, s1, T, hrun, htrace, hp⟩ :=
      createComposeStackFromGitRepository_outcomes h r endpoint userID s hs
    exact ⟨res, s1, T, hrun, htrace, hp.2.1⟩

/-- Witness of C14: the three flows when everything succeeds except `decorateStackResponse`. -/
theorem create_flows_disarm_clean_up_witness :
    (∃ res s1 T, createComposeStackFromFileContent decorateFailureHandler sampleRequest
        permissiveEndpoint 2 freshState = some (res, s1) ∧
      s1.trace = freshState.trace ++ T ∧ DisarmsCleanUp 2 res T) ∧
    (∃ res s1 T, createComposeStackFromFileUpload decorateFailureHandler sampleRequest
        permissiveEndpoint 2 freshState = some (res, s1) ∧
      s1.trace = freshState.trace ++ T ∧ DisarmsCleanUp 2 res T) ∧
    (∃ res s1 T, createComposeStackFromGitRepository decorateFailureHandler sampleRequest
        permissiveEndpoint 2 freshState = some (res, s1) ∧
      s1.trace = freshState.trace ++ T ∧ DisarmsCleanUp 2 res T) :=
  create_flows_disarm_clean_up decorateFailureHandler sampleRequest permissiveEndpoint 2
    freshState rfl

/-- The run of the witness of C14 for the file-upload flow, evaluated: the flow answers with the
error of `decorateStackResponse`, the record stays persisted, and its directory is not removed. -/
theorem file_upload_decorate_failure_run :
    (createComposeStackFromFileUpload decorateFailureHandler sampleRequest permissiveEndpoint 2
        freshState).map
      (fun out => (out.1, createdStacks out.2.trace, removedDirectories out.2.trace,
        (afterCreateStack out.2.trace).map Event.call)) =
      some (some ⟨500, "Unable to retrieve a resource control associated to the stack",
          "object not found"⟩,
        [{ sampleStack with CreatedBy := "alice" }],
        [],
        [Call.decorateStackResponse { sampleStack with CreatedBy := "alice" } 2
           (some ⟨500, "Unable to retrieve a resource control associated to the stack",
             "object not found"⟩),
         Call.cleanUp { sampleStack with CreatedBy := "alice" } false]) := by
  decide

/-- Every run of `deployComposeStack` from a free mutex reports a failed `Logout`. -/
theorem deployComposeStack_reports_logout_error (h : Handler σ)
    (config : composeStackDeploymentConfig) (s : State σ) (hs : s.stackCreationMutex = false) :
    ∃ err s1 T, deployComposeStack h config s = some (err, s1) ∧ s1.trace = s.trace ++ T ∧
      ReportsLogoutError err T := by
  obtain ⟨w, m, t⟩ := s
  subst hs
  show Exec.run (deployComposeStack h config) ⟨w, false, t⟩
    (fun err _ _ T => ReportsLogoutError err T)
  unfold deployComposeStack deployComposeStackBody policyCheck credentialSection
  repeat' first
    | with_reducible apply run_bind
    | (with_reducible apply run_call; intro _ _ _)
    | with_reducible apply run_record
    | with_reducible apply run_Lock
    | with_reducible apply run_Unlock
    | with_reducible apply run_pure
    | (with_reducible apply runFrom_intro; intro _)
    | split
    | (dsimp only; split)
    | dsimp only
  all_goals try simp only [List.cons_append, List.nil_append, List.append_nil]
  all_goals first
    | exact ⟨fun hc => (Bool.false_ne_true hc).elim, fun hc => (Bool.false_ne_true hc).elim⟩
    | exact ⟨fun hc => (Bool.false_ne_true hc).elim, fun _ => ⟨rfl, rfl⟩⟩
    | exact ⟨fun _ => ⟨rfl, rfl, rfl⟩, fun hc => (Bool.false_ne_true hc).elim⟩
    | (cases ‹Option Error› <;> first
        | exact ⟨fun hc => (Bool.false_ne_true hc).elim, fun _ => ⟨rfl, rfl⟩⟩
        | exact ⟨fun _ => ⟨rfl, rfl, rfl⟩, fun hc => (Bool.false_ne_true hc).elim⟩)

/-- C17.  In `deployComposeStack`, whatever the collaborators do: if `Up` succeeds and `Logout`
returns an error, `deployComposeStack` returns that error, and it returns nil only if `Up` and
`Logout` both returned nil.  Consequently each create flow in which `Logout` fails, although the
workload was started, answers 500 with that error, does not call `CreateStack`, and runs
`cleanUp` with `doCleanUp` true. -/
theorem logout_failure_fails_the_flows (h : Handler σ) (config : composeStackDeploymentConfig)
    (r : Request) (endpoint : Endpoint) (userID : Int) (s : State σ)
    (hs : s.stackCreationMutex = false) :
    (∃ err s1 T, deployComposeStack h config s = some (err, s1) ∧ s1.trace = s.trace ++ T ∧
      ReportsLogoutError err T) ∧
    (∃ res s1 T, createComposeStackFromFileContent h r endpoint userID s = some (res, s1) ∧
      s1.trace = s.trace ++ T ∧ FailsOnLogoutError res T) ∧
    (∃ res s1 T, createComposeStackFromFileUpload h r endpoint userID s = some (res, s1) ∧
      s1.trace = s.trace ++ T ∧ FailsOnLogoutError res T) ∧
    (∃ res s1 T, createComposeStackFromGitRepository h r endpoint userID s = some (res, s1) ∧
      s1.trace = s.trace ++ T ∧ FailsOnLogoutError res T) := by
  refine ⟨deployComposeStack_reports_logout_error h config s hs, ?_, ?_, ?_⟩
  · rw [createComposeStackFromFileContent_eq]
    obtain ⟨res, s1, T, hrun, htrace, hp⟩ :=
      createComposeStackFromBytes_outcomes h r endpoint userID "" [] [] (decodedFileContent r)
        _ s hs
    exact ⟨res, s1, T, hrun, htrace, hp.2.2.1⟩
  · rw [createComposeStackFromFileUpload_eq]
    obtain ⟨res, s1, T, hrun, htrace, hp⟩ :=
      createComposeStackFromBytes_outcomes h r endpoint userID "" [] [] (decodedFileUpload r)
        _ s hs
    exact ⟨res, s1, T, hrun, htrace, hp.2.2.1⟩
  · obtain ⟨res, s1, T, hrun, htrace, hp⟩ :=
      createComposeStackFromGitRepository_outcomes h r endpoint userID s hs
    exact ⟨res, s1, T, hrun, htrace, hp.2.2⟩

/-- Witness of C17: `deployComposeStack` and the three flows when `Logout` fails. -/
theorem logout_failure_fails_the_flows_witness :
    (∃ err s1 T, deployComposeStack logoutFailureHandler (sampleConfig permissiveEndpoint)
        freshState = some (err, s1) ∧ s1.trace = freshState.trace ++ T ∧
      ReportsLogoutError err T) ∧
    (∃ res s1 T, createComposeStackFromFileContent logoutFailureHandler sampleRequest
        permissiveEndpoint 2 freshState = some (res, s1) ∧
      s1.trace = freshState.trace ++ T ∧ FailsOnLogoutError res T) ∧
    (∃ res s1 T, createComposeStackFromFileUpload logoutFailureHandler sampleRequest
        permissiveEndpoint 2 freshState = some (res, s1) ∧
      s1.trace = freshState.trace ++ T ∧ FailsOnLogoutError res T) ∧
    (∃ res s1 T, createComposeStackFromGitRepository logoutFailureHandler sampleRequest
        permissiveEndpoint 2 freshState = some (res, s1) ∧
      s1.trace = freshState.trace ++ T ∧ FailsOnLogoutError res T) :=
  logout_failure_fails_the_flows logoutFailureHandler (sampleConfig permissiveEndpoint)
    sampleRequest permissiveEndpoint 2 freshState rfl

/-- The run of the witness of C17 for the inline-content flow, evaluated from `Up` on: `Up`
succeeds, `Logout` fails, and the flow answers 500 and removes `/data/compose/7`. -/
theorem file_content_logout_failure_run :
    (createComposeStackFromFileContent logoutFailureHandler sampleRequest permissiveEndpoint 2
        freshState).map (fun out => (out.1, (out.2.trace.map Event.call).drop 12)) =
      some (some ⟨500, "logout failed", "logout failed"⟩,
        [Call.Up sampleStack permissiveEndpoint none,
         Call.Logout permissiveEndpoint (some "logout failed"),
         Call.Unlock,
         Call.deployComposeStack (sampleConfig permissiveEndpoint) (some "logout failed"),
         Call.RemoveDirectory "/data/compose/7" none,
         Call.cleanUp sampleStack true]) := by
  decide

end Flows

/-! ## Concurrent executions of deployComposeStack -/

section Concurrency

variable {σ α β : Type}

theorem returns_pure (a : α) (s : State σ) (Q : α → State σ → Prop) (hq : Q a s) :
    Exec.returns (pure a) s Q := by
  intro b s1 hrun
  cases hrun
  exact hq

theorem returns_bind (x : Exec σ α) (f : α → Exec σ β) (s : State σ)
    (Q : β → State σ → Prop)
    (hx : Exec.returns x s (fun a s1 => Exec.returns (f a) s1 Q)) :
    Exec.returns (x >>= f) s Q := by
  intro b s2 hrun
  change Exec.bind x f s = some (b, s2) at hrun
  unfold Exec.bind at hrun
  cases hxs : x s with
  | none => rw [hxs] at hrun; cases hrun
  | some p =>
    obtain ⟨a, s1⟩ := p
    rw [hxs] at hrun
    exact hx a s1 hxs b s2 hrun

theorem returns_call (c : α → Call) (f : σ → α × σ) (w : σ) (m : Bool) (t : List Event)
    (Q : α → State σ → Prop)
    (hq : ∀ a w1, Q a ⟨w1, m, t ++ [⟨c a, m⟩]⟩) :
    Exec.returns (call c f) ⟨w, m, t⟩ Q := by
  intro b s1 hrun
  cases hrun
  exact hq _ _

theorem returns_record (c : Call) (w : σ) (m : Bool) (t : List Event)
    (Q : Unit → State σ → Prop) (hq : Q () ⟨w, m, t ++ [⟨c, m⟩]⟩) :
    Exec.returns (record c) ⟨w, m, t⟩ Q := by
  intro b s1 hrun
  cases hrun
  exact hq

theorem returns_Lock (w : σ) (m : Bool) (t : List Event) (Q : Unit → State σ → Prop)
    (hq : m = false → Q () ⟨w, true, t ++ [⟨Call.Lock, false⟩]⟩) :
    Exec.returns Lock ⟨w, m, t⟩ Q := by
  intro b s1 hrun
  cases m with
  | true => cases hrun
  | false => cases hrun; exact hq rfl

theorem returns_Unlock (w : σ) (m : Bool) (t : List Event) (Q : Unit → State σ → Prop)
    (hq : m = true → Q () ⟨w, false, t ++ [⟨Call.Unlock, true⟩]⟩) :
    Exec.returns Unlock ⟨w, m, t⟩ Q := by
  intro b s1 hrun
  cases m with
  | false => cases hrun
  | true => cases hrun; exact hq rfl

theorem returns_none (s : State σ) (Q : α → State σ → Prop) :
    Exec.returns (fun _ => none) s Q := by
  intro b s1 hrun
  cases hrun

theorem stepDeploy_effect (h : Handler σ) (config : composeStackDeploymentConfig) (pc pc1 : PC)
    (s s1 : State σ) (hstep : stepDeploy h config pc s = some (pc1, s1)) :
    StepEffect pc s.stackCreationMutex pc1 s1.stackCreationMutex := by
  obtain ⟨w, m, t⟩ := s
  revert pc1 s1
  show Exec.returns (stepDeploy h config pc) ⟨w, m, t⟩
    (fun pc1 s1 => StepEffect pc m pc1 s1.stackCreationMutex)
  cases pc <;> unfold stepDeploy
  all_goals repeat' first
    | with_reducible apply returns_bind
    | (with_reducible apply returns_call; intro _ _)
    | with_reducible apply returns_record
    | (with_reducible apply returns_Lock; intro hm; subst hm)
    | (with_reducible apply returns_Unlock; intro hm; subst hm)
    | with_reducible apply returns_pure
    | with_reducible apply returns_none
    | split
    | (dsimp only; split)
  all_goals simp [StepEffect, PC.inCriticalSection]

theorem System.step_exclusive (h : Handler σ) (configs : Nat → composeStackDeploymentConfig)
    (sys : System σ) (i : Nat) (hinv : sys.Exclusive) : (sys.step h configs i).Exclusive := by
  unfold System.step
  cases hstep : stepDeploy h (configs i) (sys.pcs i) sys.shared with
  | none => exact hinv
  | some p =>
    obtain ⟨pc1, s1⟩ := p
    have heff := stepDeploy_effect h (configs i) (sys.pcs i) pc1 sys.shared s1 hstep
    obtain ⟨hfree, huniq⟩ := hinv
    have hheld : ∀ k, (sys.pcs k).inCriticalSection = true → sys.shared.stackCreationMutex = true := by
      intro k hk
      cases hm : sys.shared.stackCreationMutex with
      | true => rfl
      | false => rw [hfree hm k] at hk; cases hk
    rcases heff with ⟨h0, h1, hm⟩ | ⟨h0, h1, hm, hm1⟩ | ⟨h0, h1, hm⟩ | ⟨h0, h1, hm, hm1⟩
    · refine ⟨?_, ?_⟩
      · intro hfree1 k
        show (Function.update sys.pcs i pc1 k).inCriticalSection = false
        by_cases hk : k = i
        · subst hk; simp [h1]
        · simp [Function.update_noteq hk]; exact hfree (hm ▸ hfree1) k
      · intro k l hk hl
        change (Function.update sys.pcs i pc1 k).inCriticalSection = true at hk
        change (Function.update sys.pcs i pc1 l).inCriticalSection = true at hl
        by_cases hki : k = i
        · subst hki; simp [h1] at hk
        · by_cases hli : l = i
          · subst hli; simp [h1] at hl
          · rw [Function.update_noteq hki] at hk
            rw [Function.update_noteq hli] at hl
            exact huniq k l hk hl
    · refine ⟨?_, ?_⟩
      · intro hfree1
        change s1.stackCreationMutex = false at hfree1
        rw [hm1] at hfree1; cases hfree1
      · intro k l hk hl
        change (Function.update sys.pcs i pc1 k).inCriticalSection = true at hk
        change (Function.update sys.pcs i pc1 l).inCriticalSection = true at hl
        by_cases hki : k = i
        · by_cases hli : l = i
          · rw [hki, hli]
          · rw [Function.update_noteq hli] at hl
            rw [hfree hm l] at hl; cases hl
        · rw [Function.update_noteq hki] at hk
          rw [hfree hm k] at hk; cases hk
    · refine ⟨?_, ?_⟩
      · intro hfree1
        change s1.stackCreationMutex = false at hfree1
        rw [hm, hheld i h0] at hfree1; cases hfree1
      · intro k l hk hl
        change (Function.update sys.pcs i pc1 k).inCriticalSection = true at hk
        change (Function.update sys.pcs i pc1 l).inCriticalSection = true at hl
        by_cases hki : k = i
        · by_cases hli : l = i
          · rw [hki, hli]
          · rw [Function.update_noteq hli] at hl
            rw [hki]; exact huniq i l h0 hl
        · rw [Function.update_noteq hki] at hk
          by_cases hli : l = i
          · rw [hli]; exact huniq k i hk h0
          · rw [Function.update_noteq hli] at hl
            exact huniq k l hk hl
    · refine ⟨?_, ?_⟩
      · intro _ k
        show (Function.update sys.pcs i pc1 k).inCriticalSection = false
        by_cases hk : k = i
        · subst hk; simp [h1]
        · rw [Function.update_noteq hk]
          cases hc : (sys.pcs k).inCriticalSection with
          | false => rfl
          | true => exact absurd (huniq k i hc h0) hk
      · intro k l hk hl
        change (Function.update sys.pcs i pc1 k).inCriticalSection = true at hk
        change (Function.update sys.pcs i pc1 l).inCriticalSection = true at hl
        by_cases hki : k = i
        · subst hki; simp [h1] at hk
        · by_cases hli : l = i
          · subst hli; simp [h1] at hl
          · rw [Function.update_noteq hki] at hk
            rw [Function.update_noteq hli] at hl
            exact huniq k l hk hl

theorem System.run_exclusive (h : Handler σ) (configs : Nat → composeStackDeploymentConfig)
    (schedule : List Nat) (sys : System σ) (hinv : sys.Exclusive) :
    (System.run h configs schedule sys).Exclusive := by
  induction schedule generalizing sys with
  | nil => exact hinv
  | cons i rest ih => exact ih (sys.step h configs i) (System.step_exclusive h configs sys i hinv)

theorem System.initial_exclusive (w : σ) : (System.initial w).Exclusive :=
  ⟨fun _ _ => rfl, fun i _ hi _ => by cases hi⟩

/-- C8.  Any number of goroutines execute `deployComposeStack` on the same handler, each with its
own configuration, interleaved in any order: at every moment, two distinct goroutines are never
both between `stackCreationMutex.Lock()` and the matching `Unlock()`, and a goroutine that is
there holds the mutex. -/
theorem deployComposeStack_mutual_exclusion (h : Handler σ)
    (configs : Nat → composeStackDeploymentConfig) (w : σ) (schedule : List Nat) (i j : Nat) :
    (i = j ∨
      ((System.run h configs schedule (System.initial w)).pcs i).inCriticalSection = false ∨
      ((System.run h configs schedule (System.initial w)).pcs j).inCriticalSection = false) ∧
    (((System.run h configs schedule (System.initial w)).pcs i).inCriticalSection = false ∨
      (System.run h configs schedule (System.initial w)).shared.stackCreationMutex = true) := by
  have hinv := System.run_exclusive h configs schedule _ (System.initial_exclusive w)
  cases hi : ((System.run h configs schedule (System.initial w)).pcs i).inCriticalSection with
  | false => exact ⟨Or.inr (Or.inl rfl), Or.inl rfl⟩
  | true =>
    refine ⟨?_, Or.inr ?_⟩
    · cases hj : ((System.run h configs schedule (System.initial w)).pcs j).inCriticalSection with
      | false => exact Or.inr (Or.inr rfl)
      | true => exact Or.inl (hinv.2 i j hi hj)
    · cases hm : (System.run h configs schedule (System.initial w)).shared.stackCreationMutex with
      | true => rfl
      | false => rw [hinv.1 hm i] at hi; cases hi

/-- Two goroutines deploying to different endpoints, evaluated: once goroutine 0 has taken the
mutex, goroutine 1 stays in `Lock` however often it is scheduled; it enters the critical section
after goroutine 0 has run its deferred `Unlock`. -/
theorem deployComposeStack_contention_run :
    ((System.run quietHandler twoDeployments [0, 0, 1, 1, 1, 1, 1, 1]
        (System.initial ())).pcs 0,
      (System.run quietHandler twoDeployments [0, 0, 1, 1, 1, 1, 1, 1]
        (System.initial ())).pcs 1,
      (System.run quietHandler twoDeployments [0, 0, 1, 1, 1, 1, 1, 1]
        (System.initial ())).shared.stackCreationMutex) = (PC.atLogin, PC.atLock, true) ∧
    ((System.run quietHandler twoDeployments [0, 0, 1, 1, 1, 1, 0, 0, 0, 1, 0, 1]
        (System.initial ())).pcs 0,
      (System.run quietHandler twoDeployments [0, 0, 1, 1, 1, 1, 0, 0, 0, 1, 0, 1]
        (System.initial ())).pcs 1,
      (System.run quietHandler twoDeployments [0, 0, 1, 1, 1, 1, 0, 0, 0, 1, 0, 1]
        (System.initial ())).shared.stackCreationMutex) =
      (PC.returned none, PC.atLogin, true) := by
  decide

theorem exec_pure_apply (a : α) (s : State σ) : (pure a : Exec σ α) s = some (a, s) := rfl

theorem exec_bind_apply (x : Exec σ α) (f : α → Exec σ β) (s : State σ) :
    (x >>= f) s = match x s with
      | none => none
      | some (a, s1) => f a s1 := rfl

/-- The transition system is the method: run alone to its end, a goroutine does exactly what
`deployComposeStack` does, from every state. -/
theorem runDeploy_eq_deployComposeStack (h : Handler σ) (config : composeStackDeploymentConfig)
    (s : State σ) :
    runDeploy h config 8 PC.atAdminCheck s = deployComposeStack h config s := by
  obtain ⟨w, m, t⟩ := s
  simp only [runDeploy, stepDeploy, deployComposeStack, deployComposeStackBody, policyCheck,
    credentialSection, exec_bind_apply, exec_pure_apply, call, record]
  generalize h.userIsAdminOrEndpointAdmin config.user config.endpoint.ID w = r1
  obtain ⟨a1, w1⟩ := r1
  cases a1 with
  | error err => rfl
  | ok isAdmin =>
    simp only []
    by_cases hp : policyCheckRequired config.endpoint.SecuritySettings isAdmin = true
    · simp only [hp, if_true, runDeploy, stepDeploy, exec_bind_apply, exec_pure_apply, call,
        record]
      generalize h.GetFileContent (h.pathJoin config.stack.ProjectPath config.stack.EntryPoint)
        w1 = r2
      obtain ⟨a2, w2⟩ := r2
      cases a2 with
      | error err => rfl
      | ok content =>
        simp only [runDeploy, stepDeploy, exec_bind_apply, exec_pure_apply, call, record]
        generalize h.isValidStackFile content config.endpoint.SecuritySettings w2 = r3
        obtain ⟨a3, w3⟩ := r3
        cases a3 with
        | some err => rfl
        | none =>
          cases m with
          | true => rfl
          | false =>
            simp only [runDeploy, stepDeploy, exec_bind_apply, exec_pure_apply, call, record,
              Lock, Unlock, Bool.false_eq_true, if_false, if_true]
            generalize h.Login config.dockerhub config.registries config.endpoint w3 = r4
            obtain ⟨a4, w4⟩ := r4
            simp only []
            generalize h.Up config.stack config.endpoint w4 = r5
            obtain ⟨a5, w5⟩ := r5
            cases a5 with
            | some err => rfl
            | none => rfl
    · simp only [hp, if_false, runDeploy, stepDeploy, exec_bind_apply, exec_pure_apply, call,
        record]
      cases m with
      | true => rfl
      | false =>
        simp only [runDeploy, stepDeploy, exec_bind_apply, exec_pure_apply, call, record,
          Lock, Unlock, Bool.false_eq_true, if_false, if_true]
        generalize h.Login config.dockerhub config.registries config.endpoint w1 = r4
        obtain ⟨a4, w4⟩ := r4
        simp only []
        generalize h.Up config.stack config.endpoint w4 = r5
        obtain ⟨a5, w5⟩ := r5
        cases a5 with
        | some err => rfl
        | none => rfl

end Concurrency

/-! ## The inline-content flow and the file-upload flow compared -/

section Equivalence
variable {σ : Type}

theorem createComposeStackFromBytes_securityContext (h : Handler σ) (r1 r2 : Request)
    (endpoint : Endpoint) (userID : Int) (decoded : Except Error (String × Bytes × List Pair))
    (conflictEnding : String) (hsec : r1.securityContext = r2.securityContext) :
    createComposeStackFromBytes h r1 endpoint userID decoded conflictEnding =
      createComposeStackFromBytes h r2 endpoint userID decoded conflictEnding := by
  unfold createComposeStackFromBytes deployAndPersist createComposeDeployConfig
    createComposeDeployConfigBody
  rw [hsec]

theorem createComposeStackFromBytes_conflictEnding (h : Handler σ) (r : Request)
    (endpoint : Endpoint) (userID : Int) (decoded : Except Error (String × Bytes × List Pair))
    (ending1 ending2 : String) (s : State σ) :
    (createComposeStackFromBytes h r endpoint userID decoded ending1 s).map Prod.snd =
      (createComposeStackFromBytes h r endpoint userID decoded ending2 s).map Prod.snd ∧
    ((createComposeStackFromBytes h r endpoint userID decoded ending1 s).map Prod.fst =
        (createComposeStackFromBytes h r endpoint userID decoded ending2 s).map Prod.fst ∨
      ∃ name,
        (createComposeStackFromBytes h r endpoint userID decoded ending1 s).map Prod.fst =
          some (some ⟨StatusConflict, "A stack with the name \x27" ++ name ++ ending1,
            "A stack with the name \x27" ++ name ++ ending1⟩) ∧
        (createComposeStackFromBytes h r endpoint userID decoded ending2 s).map Prod.fst =
          some (some ⟨StatusConflict, "A stack with the name \x27" ++ name ++ ending2,
            "A stack with the name \x27" ++ name ++ ending2⟩)) := by
  obtain ⟨w, m, t⟩ := s
  unfold createComposeStackFromBytes
  cases decoded with
  | error err => exact ⟨rfl, Or.inl rfl⟩
  | ok d =>
    obtain ⟨payloadName, stackFileContent, env⟩ := d
    simp only [exec_bind_apply, call]
    generalize h.NormalizeStackName payloadName w = r1
    obtain ⟨name, w1⟩ := r1
    simp only []
    generalize h.checkUniqueName endpoint name 0 false w1 = r2
    obtain ⟨a, w2⟩ := r2
    cases a with
    | error err => exact ⟨rfl, Or.inl rfl⟩
    | ok isUnique =>
      cases isUnique with
      | false => exact ⟨rfl, Or.inr ⟨name, rfl, rfl⟩⟩
      | true => exact ⟨rfl, Or.inl rfl⟩

/-- C18.  The inline-content flow and the file-upload flow are equivalent after payload decoding:
on requests that decode to the same name, the same content bytes and the same `Env`, made in the
same security context, with the same collaborators from the same state, both flows make the same
calls with the same arguments and results and leave the same state, return the same status code
and persist the same stack; their results are equal, except for the text of the 409 conflict
message. -/
theorem file_content_equivalent_to_file_upload (h : Handler σ) (r1 r2 : Request)
    (endpoint : Endpoint) (userID : Int) (s : State σ) (payloadName : String)
    (stackFileContent : Bytes) (env : List Pair)
    (hcontent : decodedFileContent r1 = Except.ok (payloadName, stackFileContent, env))
    (hupload : decodedFileUpload r2 = Except.ok (payloadName, stackFileContent, env))
    (hsec : r1.securityContext = r2.securityContext) :
    (createComposeStackFromFileContent h r1 endpoint userID s).map Prod.snd =
      (createComposeStackFromFileUpload h r2 endpoint userID s).map Prod.snd ∧
    (createComposeStackFromFileContent h r1 endpoint userID s).map
        (fun out => out.1.map HandlerError.StatusCode) =
      (createComposeStackFromFileUpload h r2 endpoint userID s).map
        (fun out => out.1.map HandlerError.StatusCode) ∧
    (createComposeStackFromFileContent h r1 endpoint userID s).map
        (fun out => createdStacks out.2.trace) =
      (createComposeStackFromFileUpload h r2 endpoint userID s).map
        (fun out => createdStacks out.2.trace) ∧
    ((createComposeStackFromFileContent h r1 endpoint userID s).map Prod.fst =
        (createComposeStackFromFileUpload h r2 endpoint userID s).map Prod.fst ∨
      ∃ name,
        (createComposeStackFromFileContent h r1 endpoint userID s).map Prod.fst =
          some (some ⟨StatusConflict,
            "A stack with the name \x27" ++ name ++ "\x27 is already running",
            "A stack with the name \x27" ++ name ++ "\x27 is already running"⟩) ∧
        (createComposeStackFromFileUpload h r2 endpoint userID s).map Prod.fst =
          some (some ⟨StatusConflict,
            "A stack with the name \x27" ++ name ++ "\x27 already exists",
            "A stack with the name \x27" ++ name ++ "\x27 already exists"⟩)) := by
  rw [createComposeStackFromFileContent_eq, createComposeStackFromFileUpload_eq, hcontent,
    hupload, createComposeStackFromBytes_securityContext h r1 r2 endpoint userID _ _ hsec]
  obtain ⟨hstate, hres⟩ :=
    createComposeStackFromBytes_conflictEnding h r2 endpoint userID
      (Except.ok (payloadName, stackFileContent, env)) "\x27 is already running"
      "\x27 already exists" s
  have hstatus : ∀ o : Option (Option HandlerError × State σ),
      o.map (fun out => out.1.map HandlerError.StatusCode) =
        (o.map Prod.fst).map (fun res => res.map HandlerError.StatusCode) := by
    intro o
    cases o <;> rfl
  have hcreated : ∀ o : Option (Option HandlerError × State σ),
      o.map (fun out => createdStacks out.2.trace) =
        (o.map Prod.snd).map (fun s1 => createdStacks s1.trace) := by
    intro o
    cases o <;> rfl
  refine ⟨hstate, ?_, ?_, hres⟩
  · rw [hstatus, hstatus]
    rcases hres with heq | ⟨name, h1, h2⟩
    · rw [heq]
    · rw [h1, h2]
      rfl
  · rw [hcreated, hcreated, hstate]

/-- Witness of C18: one request carrying the same name, content and `Env` as a JSON body and as
a form, with collaborators that all succeed. -/
theorem file_content_equivalent_to_file_upload_witness :
    (createComposeStackFromFileContent quietHandler sampleRequest lockedDownEndpoint 2
        freshState).map Prod.snd =
      (createComposeStackFromFileUpload quietHandler sampleRequest lockedDownEndpoint 2
        freshState).map Prod.snd ∧
    (createComposeStackFromFileContent quietHandler sampleRequest lockedDownEndpoint 2
        freshState).map (fun out => out.1.map HandlerError.StatusCode) =
      (createComposeStackFromFileUpload quietHandler sampleRequest lockedDownEndpoint 2
        freshState).map (fun out => out.1.map HandlerError.StatusCode) ∧
    (createComposeStackFromFileContent quietHandler sampleRequest lockedDownEndpoint 2
        freshState).map (fun out => createdStacks out.2.trace) =
      (createComposeStackFromFileUpload quietHandler sampleRequest lockedDownEndpoint 2
        freshState).map (fun out => createdStacks out.2.trace) ∧
    ((createComposeStackFromFileContent quietHandler sampleRequest lockedDownEndpoint 2
        freshState).map Prod.fst =
        (createComposeStackFromFileUpload quietHandler sampleRequest lockedDownEndpoint 2
          freshState).map Prod.fst ∨
      ∃ name,
        (createComposeStackFromFileContent quietHandler sampleRequest lockedDownEndpoint 2
          freshState).map Prod.fst =
          some (some ⟨StatusConflict,
            "A stack with the name \x27" ++ name ++ "\x27 is already running",
            "A stack with the name \x27" ++ name ++ "\x27 is already running"⟩) ∧
        (createComposeStackFromFileUpload quietHandler sampleRequest lockedDownEndpoint 2
          freshState).map Prod.fst =
          some (some ⟨StatusConflict,
            "A stack with the name \x27" ++ name ++ "\x27 already exists",
            "A stack with the name \x27" ++ name ++ "\x27 already exists"⟩)) :=
  file_content_equivalent_to_file_upload quietHandler sampleRequest sampleRequest
    lockedDownEndpoint 2 freshState "web" [118, 49] [] (by decide) (by decide) rfl

/-- The two flows evaluated on the request of the witness of C18: the same calls, the same
answer, the same persisted stack. -/
theorem file_flows_quiet_runs :
    (createComposeStackFromFileContent quietHandler sampleRequest lockedDownEndpoint 2
        freshState).map (fun out => (out.1, out.2.trace)) =
      (createComposeStackFromFileUpload quietHandler sampleRequest lockedDownEndpoint 2
        freshState).map (fun out => (out.1, out.2.trace)) ∧
    (createComposeStackFromFileUpload quietHandler sampleRequest lockedDownEndpoint 2
        freshState).map (fun out => (out.1, out.2.trace.length, createdStacks out.2.trace)) =
      some (none, 21, [{ sampleStack with CreatedBy := "alice" }]) := by
  decide

end Equivalence

/-! ## Validation of the git-repository payload -/

section Validation

theorem IsNull_iff (str : String) : IsNull str = true ↔ str = "" := by
  unfold IsNull
  rw [beq_iff_eq, String.length, List.length_eq_zero]
  constructor
  · intro hdata
    exact String.ext hdata
  · intro hstr
    rw [hstr]

/-- C15.  The method `composeStackFromGitRepositoryPayload.Validate` returns an error if and
only if the name is empty, or the repository URL is empty or not a valid URL, or authentication
is enabled and the username or the password is empty.  The checks are made in the order name,
URL, credentials, and the first that fails determines the message; with authentication disabled,
an empty username and password are accepted.  The payload the handler continues with is the
decoded payload, unchanged. -/
theorem git_payload_validate_iff (IsURL : String → Bool)
    (payload : composeStackFromGitRepositoryPayload) :
    ((composeStackFromGitRepositoryPayload.Validate IsURL payload).isSome = true ↔
      (payload.Name = "" ∨
        (payload.RepositoryURL = "" ∨ IsURL payload.RepositoryURL = false) ∨
        (payload.RepositoryAuthentication = true ∧
          (payload.RepositoryUsername = "" ∨ payload.RepositoryPassword = "")))) ∧
    (payload.Name = "" →
      composeStackFromGitRepositoryPayload.Validate IsURL payload = some "Invalid stack name") ∧
    (payload.Name ≠ "" →
      (payload.RepositoryURL = "" ∨ IsURL payload.RepositoryURL = false) →
      composeStackFromGitRepositoryPayload.Validate IsURL payload =
        some "Invalid repository URL. Must correspond to a valid URL format") ∧
    (payload.Name ≠ "" → payload.RepositoryURL ≠ "" → IsURL payload.RepositoryURL = true →
      payload.RepositoryAuthentication = true →
      (payload.RepositoryUsername = "" ∨ payload.RepositoryPassword = "") →
      composeStackFromGitRepositoryPayload.Validate IsURL payload =
        some ("Invalid repository credentials. " ++
          "Username and password must be specified when authentication is enabled")) ∧
    (payload.Name ≠ "" → payload.RepositoryURL ≠ "" → IsURL payload.RepositoryURL = true →
      payload.RepositoryAuthentication = false →
      composeStackFromGitRepositoryPayload.Validate IsURL payload = none) ∧
    (∀ accepted,
      DecodeAndValidateJSONPayload (Except.ok payload)
          (composeStackFromGitRepositoryPayload.Validate IsURL) = Except.ok accepted →
        accepted = payload) := by
  have hname := IsNull_iff payload.Name
  have hurl := IsNull_iff payload.RepositoryURL
  have huser := IsNull_iff payload.RepositoryUsername
  have hpass := IsNull_iff payload.RepositoryPassword
  unfold composeStackFromGitRepositoryPayload.Validate DecodeAndValidateJSONPayload
  cases hn : IsNull payload.Name <;> cases hu : IsNull payload.RepositoryURL <;>
    cases hv : IsURL payload.RepositoryURL <;> cases ha : payload.RepositoryAuthentication <;>
    cases hlogin : IsNull payload.RepositoryUsername <;>
    cases hp : IsNull payload.RepositoryPassword <;>
    simp_all

/-- Witness of C15: with authentication disabled, a payload with a name, a valid URL and neither
username nor password is accepted. -/
theorem git_payload_validate_iff_witness :
    composeStackFromGitRepositoryPayload.Validate (fun _ => true) sampleGitPayload = none :=
  (git_payload_validate_iff (fun _ => true) sampleGitPayload).2.2.2.2.1
    (by decide) (by decide) rfl rfl

/-- The method `Validate` evaluated: the first failing check determines the message. -/
theorem git_payload_validate_runs :
    composeStackFromGitRepositoryPayload.Validate (fun _ => false)
        { sampleGitPayload with Name := "", RepositoryAuthentication := true } =
      some "Invalid stack name" ∧
    composeStackFromGitRepositoryPayload.Validate (fun _ => false)
        { sampleGitPayload with RepositoryAuthentication := true } =
      some "Invalid repository URL. Must correspond to a valid URL format" ∧
    composeStackFromGitRepositoryPayload.Validate (fun _ => true)
        { sampleGitPayload with RepositoryURL := "", RepositoryAuthentication := true } =
      some "Invalid repository URL. Must correspond to a valid URL format" ∧
    composeStackFromGitRepositoryPayload.Validate (fun _ => true)
        { sampleGitPayload with RepositoryAuthentication := true, RepositoryUsername := "git" } =
      some ("Invalid repository credentials. Username and password must be specified when " ++
        "authentication is enabled") ∧
    composeStackFromGitRepositoryPayload.Validate (fun _ => true)
        { sampleGitPayload with
          RepositoryAuthentication := true, RepositoryUsername := "git",
          RepositoryPassword := "secret" } = none := by
  decide

end Validation

/-! ## The version service: reading back what was stored -/

section Version

theorem utf8EncodeChar_digitChar (d : Nat) (hd : d < 10) :
    String.utf8EncodeChar (Nat.digitChar d) = [digitByte d] := by
  interval_cases d <;> rfl

theorem digitByte_isDigitByte (d : Nat) (hd : d < 10) : isDigitByte (digitByte d) = true := by
  interval_cases d <;> rfl

theorem digitByte_toNat_sub (d : Nat) (hd : d < 10) : (digitByte d).toNat - 48 = d := by
  interval_cases d <;> rfl

theorem toDigitsCore_eq_digits (fuel : Nat) :
    ∀ (n : Nat) (ds : List Char), 0 < n → n < fuel →
      Nat.toDigitsCore 10 fuel n ds = (Nat.digits 10 n).reverse.map Nat.digitChar ++ ds := by
  induction fuel with
  | zero => intro n ds _ hf; omega
  | succ fuel ih =>
    intro n ds hn hf
    rw [Nat.digits_def' (by norm_num) hn]
    simp only [Nat.toDigitsCore]
    split
    · next h0 =>
      rw [h0]
      simp
    · next h0 =>
      rw [ih (n / 10) _ (Nat.pos_of_ne_zero h0) (by omega)]
      simp

theorem toDigits_eq_digits (n : Nat) (hn : 0 < n) :
    Nat.toDigits 10 n = (Nat.digits 10 n).reverse.map Nat.digitChar := by
  unfold Nat.toDigits
  rw [toDigitsCore_eq_digits (n + 1) n [] hn (by omega), List.append_nil]

theorem flatMap_utf8EncodeChar_digits (L : List Nat) (hL : ∀ d ∈ L, d < 10) :
    (L.map Nat.digitChar).flatMap String.utf8EncodeChar = L.map digitByte := by
  induction L with
  | nil => rfl
  | cons d L ih =>
    have hd := hL d (List.mem_cons_self d L)
    have hrest := ih (fun x hx => hL x (List.mem_cons_of_mem d hx))
    simp only [List.map_cons, List.flatMap_cons, utf8EncodeChar_digitChar d hd, hrest,
      List.singleton_append]

/-- The bytes of the decimal representation of a positive number are its digits, most
significant first. -/
theorem bytesOfString_repr (n : Nat) (hn : 0 < n) :
    bytesOfString (Nat.repr n) = (Nat.digits 10 n).reverse.map digitByte := by
  unfold bytesOfString Nat.repr
  show (Nat.toDigits 10 n).flatMap String.utf8EncodeChar = _
  rw [toDigits_eq_digits n hn]
  exact flatMap_utf8EncodeChar_digits _
    (fun d hd => Nat.digits_lt_base (by norm_num) (List.mem_reverse.mp hd))

theorem digitsValue_map_digitByte (L : List Nat) (hL : ∀ d ∈ L, d < 10) :
    digitsValue (L.reverse.map digitByte) = Nat.ofDigits 10 L := by
  induction L with
  | nil => rfl
  | cons d L ih =>
    have hd := hL d (List.mem_cons_self d L)
    have hrest := ih (fun x hx => hL x (List.mem_cons_of_mem d hx))
    unfold digitsValue at hrest ⊢
    rw [List.reverse_cons, List.map_append, List.foldl_append, hrest]
    simp only [List.map_cons, List.map_nil, List.foldl_cons, List.foldl_nil,
      digitByte_toNat_sub d hd, Nat.ofDigits_cons]
    ring

theorem all_isDigitByte_map (L : List Nat) (hL : ∀ d ∈ L, d < 10) :
    (L.map digitByte).all isDigitByte = true := by
  rw [List.all_eq_true]
  intro b hb
  obtain ⟨d, hd, rfl⟩ := List.mem_map.mp hb
  exact digitByte_isDigitByte d (hL d hd)

/-- The bytes of the decimal representation of a number: they are not empty, all of them are
digits, and the number they denote is that number. -/
theorem bytesOfString_repr_spec (n : Nat) :
    (bytesOfString (Nat.repr n)).isEmpty = false ∧
    (bytesOfString (Nat.repr n)).all isDigitByte = true ∧
    digitsValue (bytesOfString (Nat.repr n)) = n := by
  rcases Nat.eq_zero_or_pos n with h0 | hpos
  · subst h0
    exact ⟨rfl, rfl, rfl⟩
  · have hlt : ∀ d ∈ Nat.digits 10 n, d < 10 := fun d hd => Nat.digits_lt_base (by norm_num) hd
    rw [bytesOfString_repr n hpos]
    refine ⟨?_, ?_, ?_⟩
    · cases hd : (Nat.digits 10 n) with
      | nil => exact absurd hd (Nat.digits_ne_nil_iff_ne_zero.mpr (by omega))
      | cons d L => simp
    · exact all_isDigitByte_map _ (fun d hd => hlt d (List.mem_reverse.mp hd))
    · rw [digitsValue_map_digitByte _ hlt, Nat.ofDigits_digits]

theorem Atoi_of_digits (digits : Bytes) (hne : digits.isEmpty = false)
    (hall : digits.all isDigitByte = true) (hrange : digitsValue digits < 2 ^ (intSize - 1)) :
    Atoi digits = (((digitsValue digits : Nat) : Int), none) := by
  cases digits with
  | nil => cases hne
  | cons ch rest =>
    have hch : isDigitByte ch = true := by
      rw [List.all_cons, Bool.and_eq_true] at hall
      exact hall.1
    have h45 : (ch == 45) = false := by
      cases h : (ch == 45) with
      | false => rfl
      | true => rw [eq_of_beq h] at hch; cases hch
    have h43 : (ch == 43) = false := by
      cases h : (ch == 43) with
      | false => rfl
      | true => rw [eq_of_beq h] at hch; cases hch
    have hle : ¬ (2 ^ (intSize - 1) ≤ digitsValue (ch :: rest)) := by omega
    unfold digitsValue at hle
    simp [Atoi, List.head?, h45, h43, hall, hle, digitsValue]
    simp only [List.foldl_cons, Nat.zero_mul, Nat.zero_add] at hle
    exact Nat.lt_of_not_le hle

theorem Atoi_of_minus_digits (digits : Bytes) (hne : digits.isEmpty = false)
    (hall : digits.all isDigitByte = true) (hrange : digitsValue digits ≤ 2 ^ (intSize - 1)) :
    Atoi (45 :: digits) = (-((digitsValue digits : Nat) : Int), none) := by
  have hle : ¬ (2 ^ (intSize - 1) < digitsValue digits) := by omega
  unfold digitsValue at hle
  simp [Atoi, List.head?, hall, hle, hne, digitsValue]

theorem bytesOfString_minus (s : String) :
    bytesOfString ("-" ++ s) = 45 :: bytesOfString s := by
  unfold bytesOfString
  rw [String.data_append]
  rfl

/-- The function `strconv.Atoi` undoes `strconv.Itoa` on every `int`. -/
theorem Atoi_Itoa (v : Int) (hlo : -(2 ^ (intSize - 1)) ≤ v) (hhi : v < 2 ^ (intSize - 1)) :
    Atoi (bytesOfString (Itoa v)) = (v, none) := by
  cases v with
  | ofNat n =>
    obtain ⟨hne, hall, hval⟩ := bytesOfString_repr_spec n
    have hn : n < 2 ^ (intSize - 1) := by
      have hcast : (n : Int) < 2 ^ (intSize - 1) := hhi
      exact_mod_cast hcast
    show Atoi (bytesOfString (Nat.repr n)) = _
    rw [Atoi_of_digits _ hne hall (by rw [hval]; exact hn), hval]
    rfl
  | negSucc m =>
    obtain ⟨hne, hall, hval⟩ := bytesOfString_repr_spec (m + 1)
    have hm : m + 1 ≤ 2 ^ (intSize - 1) := by
      have h1 : -((2 : Int) ^ (intSize - 1)) ≤ -((m : Int) + 1) := by
        rw [Int.negSucc_eq] at hlo
        exact hlo
      have h2 : ((m : Int) + 1) ≤ (2 : Int) ^ (intSize - 1) := by omega
      exact_mod_cast h2
    show Atoi (bytesOfString ("-" ++ Nat.repr (m + 1))) = _
    rw [bytesOfString_minus, Atoi_of_minus_digits _ hne hall (by rw [hval]; exact hm), hval]
    rfl

theorem DBVersion_of_Get (service : Service) (value : Bytes)
    (hget : service.db.bucket.Get (bytesOfString versionKey) = some value) :
    service.DBVersion = Atoi value := by
  simp only [Service.DBVersion, DB.View, hget]

/-- C16.  For every `int` and every state of the store: once `StoreDBVersion(version)` has
returned nil, `DBVersion()` returns `(version, nil)`: `strconv.Atoi` undoes `strconv.Itoa` on the
stored bytes, for negative numbers and zero too.  And on a store in which the key `DB_VERSION`
holds nothing, `DBVersion()` returns `(0, ErrObjectNotFound)`. -/
theorem DBVersion_after_StoreDBVersion (service : Service) (version : Int)
    (hlo : -(2 ^ (intSize - 1)) ≤ version) (hhi : version < 2 ^ (intSize - 1))
    (hstore : (service.StoreDBVersion version).1 = none) :
    (service.StoreDBVersion version).2.DBVersion = (version, none) ∧
    ∀ unwritten : Service, unwritten.db.bucket.Get (bytesOfString versionKey) = none →
      unwritten.DBVersion = (0, some ErrObjectNotFound) := by
  refine ⟨?_, ?_⟩
  · rw [DBVersion_of_Get _ (bytesOfString (Itoa version)), Atoi_Itoa version hlo hhi]
    revert hstore
    simp only [Service.StoreDBVersion, DB.Update, Bucket.Put]
    split_ifs <;> simp [Bucket.Get, List.lookup]
  · intro unwritten hget
    simp only [Service.DBVersion, DB.View, hget]

/-- Witness of C16: the version -35 stored in an empty writable database, and the empty database
itself. -/
theorem DBVersion_after_StoreDBVersion_witness :
    (Service.StoreDBVersion ⟨⟨false, []⟩⟩ (-35)).1 = none ∧
    (Service.StoreDBVersion ⟨⟨false, []⟩⟩ (-35)).2.DBVersion = (-35, none) ∧
    Service.DBVersion ⟨⟨false, []⟩⟩ = (0, some ErrObjectNotFound) :=
  ⟨by decide,
    (DBVersion_after_StoreDBVersion ⟨⟨false, []⟩⟩ (-35) (by decide) (by decide) (by decide)).1,
    (DBVersion_after_StoreDBVersion ⟨⟨false, []⟩⟩ (-35) (by decide) (by decide) (by decide)).2
      ⟨⟨false, []⟩⟩ rfl⟩

/-- The version service, evaluated: a stored version replaces the previous one, the extreme
values of an `int` are read back, a read-only database rejects the write and keeps what it held,
and a value that is not a number is reported as a syntax error. -/
theorem version_service_runs :
    ((Service.StoreDBVersion ⟨⟨false, []⟩⟩ 24).2.StoreDBVersion 0).2.DBVersion = (0, none) ∧
    (Service.StoreDBVersion ⟨⟨false, []⟩⟩ (-9223372036854775808)).2.DBVersion =
      (-9223372036854775808, none) ∧
    (Service.StoreDBVersion ⟨⟨false, []⟩⟩ 9223372036854775807).2.DBVersion =
      (9223372036854775807, none) ∧
    ((Service.StoreDBVersion ⟨⟨false, []⟩⟩ 24).2.StoreDBVersion 25).2.db.bucket =
      [(bytesOfString "DB_VERSION", [50, 53])] ∧
    (Service.StoreDBVersion ⟨⟨true, [(bytesOfString "DB_VERSION", [50, 52])]⟩⟩ 25).1 =
      some "database is in read-only mode" ∧
    (Service.StoreDBVersion ⟨⟨true, [(bytesOfString "DB_VERSION", [50, 52])]⟩⟩ 25).2.DBVersion =
      (24, none) ∧
    Service.DBVersion ⟨⟨false, [(bytesOfString "DB_VERSION", bytesOfString "v2")]⟩⟩ =
      (0, some ErrSyntax) := by
  decide

end Version

end Portainer
